import Mathlib

/-!
Verification of the multi-campaign insurance chatbot
(main.py, Campaign1/sgsa.py, Campaign2/tabung_warisan.py,
Campaign3/masa_depan_anak_kita.py, Campaign4/tabung_perubatan.py,
Campaign5/perlindungan_combo.py).

Modelling conventions:
* Python floats are modelled by `ℚ` (exact arithmetic); Python `round`
  (round-half-to-even) is modelled by `pyRoundInt` / `round2`.
* Python dicts carrying user data are modelled by association lists over
  `PyVal`; inbound messages by `Msg` (plain string or button-click dict).
* Response dicts are modelled by `Resp`; long message texts are represented
  by a `Content.templ` tag naming the source template together with the
  numbers interpolated into it (all such templates render nonempty text).
  Button lists carry the `value` tokens; labels are presentation-only.
* Calls to the external sheet collaborator (`append_row_to_sheet`) are
  modelled by counting attempted appends in `StepOut.rows`; the surrounding
  `try/except` in the source swallows failures, so results never depend on
  the append outcome.
* A Python exception that escapes to a handler's outer `try` boundary is an
  `Except.error` carrying the state at the raise point and the exception
  name; the boundary handler is applied on top, exactly as in the source.
-/

namespace Chatbot

set_option maxRecDepth 2000

/-! ### Python primitives -/

def natFromDigits (l : List Char) : Nat :=
  l.foldl (fun n c => n * 10 + (c.toNat - 48)) 0

def allDigits (l : List Char) : Bool := !l.isEmpty && l.all Char.isDigit

/-- Python `int(s)` on a string: strip, optional sign, digits. -/
def pyInt (s : String) : Option Int :=
  let t := s.trim
  match t.toList with
  | '-' :: rest => if allDigits rest then some (-(natFromDigits rest : Int)) else none
  | '+' :: rest => if allDigits rest then some ((natFromDigits rest : Int)) else none
  | l => if allDigits l then some ((natFromDigits l : Int)) else none

/-- Python `float(s)` on the digit/dot strings produced by the input
cleaning filters (`''.join(c for c in s if c.isdigit() or c == '.')`). -/
def pyFloat (s : String) : Option ℚ :=
  match s.splitOn "." with
  | [a] => if allDigits a.toList then some ((natFromDigits a.toList : ℚ)) else none
  | [a, b] =>
      if (!a.isEmpty || !b.isEmpty) && a.toList.all Char.isDigit
          && b.toList.all Char.isDigit then
        some ((natFromDigits a.toList : ℚ)
          + (natFromDigits b.toList : ℚ) / (10 : ℚ) ^ b.length)
      else none
  | _ => none

/-- Python `round(q)` to an integer: round half to even. -/
def pyRoundInt (q : ℚ) : ℤ :=
  if q - (⌊q⌋ : ℚ) < 1/2 then ⌊q⌋
  else if 1/2 < q - (⌊q⌋ : ℚ) then ⌊q⌋ + 1
  else if ⌊q⌋ % 2 = 0 then ⌊q⌋ else ⌊q⌋ + 1

/-- Python `round(q, 2)`. -/
def round2 (q : ℚ) : ℚ := ((pyRoundInt (q * 100) : ℚ)) / 100

/-- Python substring test `needle in hay` (all needles used are nonempty). -/
def strIn (needle hay : String) : Bool := 2 ≤ (hay.splitOn needle).length

/-- `re.findall(r'\d+', s)`: the maximal digit runs of `s`, left to right. -/
def digitRunsAux : List Char → List Char → List (List Char)
  | [], acc => if acc.isEmpty then [] else [acc.reverse]
  | c :: cs, acc =>
    if c.isDigit then digitRunsAux cs (c :: acc)
    else if acc.isEmpty then digitRunsAux cs []
    else acc.reverse :: digitRunsAux cs []

def digitRuns (s : String) : List (List Char) := digitRunsAux s.toList []

/-- `re.search(r'\d+', s)`: first maximal digit run, as a number. -/
def firstDigitRun (s : String) : Option Nat :=
  (digitRuns s).head?.map natFromDigits

/-- `re.sub(r'\d+', '', s)`: remove all digits. -/
def stripDigits (s : String) : String :=
  String.mk (s.toList.filter (fun c => !c.isDigit))

/-- `''.join(c for c in s if c.isdigit() or c == '.')`. -/
def keepNumChars (s : String) : String :=
  String.mk (s.toList.filter (fun c => c.isDigit || c == '.'))

/-! ### Python values, dicts and messages -/

inductive PyVal where
  | str (v : String)
  | int (v : Int)
  | float (v : ℚ)
  | pynone
deriving DecidableEq

abbrev PyDict := List (String × PyVal)

def dget (d : PyDict) (k : String) : Option PyVal :=
  (d.find? (fun kv => kv.1 == k)).map (·.2)

def dgetD (d : PyDict) (k : String) (v : PyVal) : PyVal := (dget d k).getD v

def dhas (d : PyDict) (k : String) : Bool := d.any (fun kv => kv.1 == k)

def dset (k : String) (v : PyVal) (d : PyDict) : PyDict :=
  if d.any (fun kv => kv.1 == k) then
    d.map (fun kv => if kv.1 == k then (k, v) else kv)
  else d ++ [(k, v)]

/-- Python `base.update(upd)`. -/
def dupdate (base upd : PyDict) : PyDict :=
  upd.foldl (fun b kv => dset kv.1 kv.2 b) base

def PyVal.truthy : PyVal → Bool
  | .str v => !v.isEmpty
  | .int v => v != 0
  | .float v => v != 0
  | .pynone => false

/-- Python `str(v)`. -/
def PyVal.pyStr : PyVal → String
  | .str v => v
  | .int v => toString v
  | .float _ => "PYFLOATREPR"
  | .pynone => "None"

/-- Python `int(v)` on a dynamic value (`none` = raises). -/
def pyIntOfVal : PyVal → Option Int
  | .str v => pyInt v
  | .int v => some v
  | .float v => some (if 0 ≤ v then ⌊v⌋ else -⌊-v⌋)
  | .pynone => none

/-- Python `float(v)` on a dynamic value (`none` = raises). -/
def pyFloatOfVal : PyVal → Option ℚ
  | .str v => pyFloat v.trim
  | .int v => some ((v : ℚ))
  | .float v => some v
  | .pynone => none

/-- A truthy dict entry: `key in d and d[key]`. -/
def dTruthy (d : PyDict) (k : String) : Bool :=
  match dget d k with
  | some v => v.truthy
  | none => false

structure MsgDict where
  value? : Option String := none
  text? : Option String := none
  mtype? : Option String := none
deriving DecidableEq

/-- An inbound message: plain text or a button-click dict. -/
inductive Msg where
  | str (s : String)
  | dict (d : MsgDict)
deriving DecidableEq

def Msg.truthy : Msg → Bool
  | .str s => !s.isEmpty
  | .dict d => d.value?.isSome || d.text?.isSome || d.mtype?.isSome

/-- Python `str(message)`: the repr of a dict never equals any command
literal the handlers compare against, and contains no digits. -/
def Msg.pyStr : Msg → String
  | .str s => s
  | .dict _ => "PYDICTREPR"

/-! ### Responses -/

inductive Content where
  | lit (s : String)
  | templ (tag : String) (nums : List ℚ)
deriving DecidableEq

/-- Whether the rendered text is empty (all source templates are nonempty). -/
def Content.isEmptyText : Content → Bool
  | .lit s => s.isEmpty
  | .templ _ _ => false

structure Resp where
  rtype : String := "message"
  content : Content := .lit ""
  next_step : Option String := none
  buttons : List String := []
  completed : Bool := false
deriving DecidableEq

structure StepOut (σ : Type) where
  state : σ
  resp : Resp
  rows : Nat := 0
deriving DecidableEq

/-- Result of a handler body: `error` = a Python exception reaching the
outer `try` boundary (state at the raise point, exception name). -/
abbrev PyRes (σ : Type) := Except (σ × String) (StepOut σ)

/-! ### Premium calculators -/

/-- Campaign1/sgsa.py lines 30-38: premium rate per thousand by age band. -/
def sgsaRate (age : Int) : ℚ :=
  if age ≤ 30 then 1.20
  else if age ≤ 40 then 1.70
  else if age ≤ 50 then 2.80
  else 4.50

structure PremiumInfo where
  recommended_coverage : ℚ
  annual_premium : ℚ
  monthly_premium : ℚ
  premium_rate_per_thousand : ℚ
  age : Int
  years_of_coverage : Int
  annual_income : ℚ
deriving DecidableEq

/-- Campaign1/sgsa.py lines 15-59 (`calculate_premium_estimation`). -/
def calculate_premium_estimation (annual_income : ℚ) (years_of_coverage : Int)
    (age : Int) : PremiumInfo :=
  let recommended_coverage := annual_income * 10
  let premium_rate_per_thousand := sgsaRate age
  let units_of_coverage := recommended_coverage / 1000
  let estimated_annual_premium := units_of_coverage * premium_rate_per_thousand
  let estimated_annual_premium' := max estimated_annual_premium 100
  let estimated_monthly_premium' := estimated_annual_premium' / 12
  { recommended_coverage := recommended_coverage
    annual_premium := round2 estimated_annual_premium'
    monthly_premium := round2 estimated_monthly_premium'
    premium_rate_per_thousand := premium_rate_per_thousand
    age := age
    years_of_coverage := years_of_coverage
    annual_income := annual_income }

/-- Campaign2/tabung_warisan.py lines 30-38
(`calculate_warisan_premium_estimation`). -/
def calculate_warisan_premium_estimation (legacy_amount : ℚ) (age : Int) : ℚ :=
  let base_factor : ℚ := if age ≤ 35 then 30 else if age ≤ 45 then 40 else 55
  (legacy_amount / 1000) * base_factor

/-- Campaign3/masa_depan_anak_kita.py lines 16-18 (`future_value_annuity`). -/
def future_value_annuity (payment rate : ℚ) (years : Nat) : ℚ :=
  payment * (((1 + rate) ^ years - 1) / rate)

/-- Campaign4/tabung_perubatan.py lines 73-103 (`estimate_medical_premium`).
A `none` age models the `state.age is None` call, whose comparison raises
`TypeError` and is caught by the function's own `except`. -/
def estimate_medical_premium (age : Option Int) (coverage_level : Int) :
    ℚ × String :=
  match age with
  | none => (0, "Unable to calculate premium at this time")
  | some a =>
    let base_premium : ℚ := if a ≤ 17 then 80 else if a ≤ 60 then 120 else 350
    let multiplier : ℚ :=
      if coverage_level = 1 then 1.0 else if coverage_level = 2 then 2.0 else 3.5
    let age_adjustment : ℚ := if a > 40 then ((a : ℚ) - 40) * 2.5 else 0
    (round2 (base_premium * multiplier + age_adjustment), "")

def comboAgeGuidance : String :=
  "Combo plans are typically for ages 18-60. Please consult our advisor for alternative options."

def comboTierGuidance : String :=
  "Invalid package tier. Please choose 1, 2, or 3."

/-- Campaign5/perlindungan_combo.py lines 132-192 (`calculate_combo_tier`). -/
def calculate_combo_tier (age package_tier : Int) :
    Option ℚ × Option ℚ × Option String :=
  if package_tier ≠ 1 ∧ package_tier ≠ 2 ∧ package_tier ≠ 3 then
    (none, none, some comboTierGuidance)
  else
    let bands : List ℚ :=
      if package_tier = 1 then [1200, 1800, 2700, 4000]
      else if package_tier = 2 then [2000, 3000, 4500, 6500]
      else [3000, 4500, 6500, 9500]
    let band? : Option Nat :=
      if 18 ≤ age ∧ age ≤ 30 then some 0
      else if 31 ≤ age ∧ age ≤ 40 then some 1
      else if 41 ≤ age ∧ age ≤ 50 then some 2
      else if 51 ≤ age ∧ age ≤ 60 then some 3
      else none
    match band? with
    | none => (none, none, some comboAgeGuidance)
    | some b =>
      let annual := bands.getD b 0
      (some annual, some (round2 (annual / 12)), none)

/-! ### main.py: age derivation and the get_dob onboarding step -/

structure PyDate where
  year : Int
  month : Int
  day : Int
deriving DecidableEq

def isLeap (y : Int) : Bool := (y % 4 == 0 && y % 100 != 0) || y % 400 == 0

def daysInMonth (y m : Int) : Int :=
  if m == 2 then (if isLeap y then 29 else 28)
  else if m == 4 || m == 6 || m == 9 || m == 11 then 30
  else 31

/-- The dates accepted by Python `datetime(year=y, month=m, day=d)`. -/
def validDate (y m d : Int) : Bool :=
  decide (1 ≤ y ∧ y ≤ 9999 ∧ 1 ≤ m ∧ m ≤ 12 ∧ 1 ≤ d) && decide (d ≤ daysInMonth y m)

/-- `today.year - dob.year - ((today.month, today.day) < (dob.month, dob.day))`
(main.py line 46); the tuple comparison is lexicographic. -/
def ageOn (today : PyDate) (y m d : Int) : Int :=
  today.year - y -
    (if today.month < m ∨ (today.month = m ∧ today.day < d) then 1 else 0)

/-- `dob.split('/')` into three all-digit fields, as (day, month, year). -/
def parseDMY (s : String) : Option (Int × Int × Int) :=
  match s.splitOn "/" with
  | [d, m, y] =>
    if allDigits d.toList && allDigits m.toList && allDigits y.toList then
      some ((natFromDigits d.toList : Int), (natFromDigits m.toList : Int),
        (natFromDigits y.toList : Int))
    else none
  | _ => none

/-- main.py lines 42-49 (`calculate_age`): `strptime(dob_str, "%d/%m/%Y")`
parses and validates the calendar date; any failure yields `"Unknown"`. -/
def calculate_age (today : PyDate) (dob_str : String) : String :=
  match parseDMY dob_str with
  | some (d, m, y) =>
    if validDate y m d then toString (ageOn today y m d) else "Unknown"
  | none => "Unknown"

/-- The regex `^\d{2}/\d{2}/\d{4}$` (main.py line 782). -/
def dobRegexOk (s : String) : Bool :=
  match s.toList with
  | [a, b, s1, c, d, s2, e, f, g, h] =>
    a.isDigit && b.isDigit && (s1 == '/') && c.isDigit && d.isDigit
      && (s2 == '/') && e.isDigit && f.isDigit && g.isDigit && h.isDigit
  | _ => false

structure DobStepOut where
  user_data : PyDict
  step : String
  reply : Content
deriving DecidableEq

/-- main.py lines 778-800: the `get_dob` onboarding step.  On success it
stores `dob` and the derived `age` (as a string) and advances to
`get_email`; on a malformed or invalid date it re-prompts and stays at
`get_dob` storing nothing. -/
def orchGetDob (today : PyDate) (ud : PyDict) (message_content : String) :
    DobStepOut :=
  let dob := message_content.trim
  if !dobRegexOk dob then
    ⟨ud, "get_dob", .templ "dob_format_reprompt" []⟩
  else
    match parseDMY dob with
    | some (d, m, y) =>
      if validDate y m d then
        let ud := dset "dob" (.str dob) ud
        let age := calculate_age today dob
        let ud := dset "age" (.str age) ud
        ⟨ud, "get_email", .templ "dob_ok_ask_email" []⟩
      else ⟨ud, "get_dob", .templ "dob_invalid_reprompt" []⟩
    | none => ⟨ud, "get_dob", .templ "dob_invalid_reprompt" []⟩

/-! ### main.py: campaign option list (`show_campaign_options`) -/

structure CampaignEntry where
  cid : String
  title : String
  priority : Int
deriving DecidableEq

/-- main.py lines 203-234: the five campaigns with their priority rules. -/
def allCampaignEntries (primary_concern life_stage : String)
    (dependents user_age : Int) : List CampaignEntry :=
  [⟨"sgsa", "Satu Gaji Satu Harapan",
    if ["income_protection", "medical_expenses"].contains primary_concern
        || decide (dependents > 0) then 1 else 1⟩,
   ⟨"tabung_warisan", "Tabung Warisan",
    if ["retirement", "savings"].contains primary_concern
        || decide (user_age ≥ 40) then 1 else 0⟩,
   ⟨"tabung_perubatan", "Tabung Perubatan",
    if ["medical_expenses", "health"].contains primary_concern
        || decide (dependents > 0) then 1 else 1⟩,
   ⟨"masa_depan_anak_kita", "Masa Depan Anak Kita",
    if (primary_concern == "education") || decide (dependents > 0) then 1 else 0⟩,
   ⟨"perlindungan_combo", "Perlindungan Combo",
    if ["comprehensive", "all_round"].contains primary_concern
        || ["family", "married"].contains life_stage then 1 else 0⟩]

/-- The sort key `(-priority, title)` compared as Python compares tuples. -/
def campaignKeyLt (a b : CampaignEntry) : Bool :=
  decide (-a.priority < -b.priority)
    || (decide (-a.priority = -b.priority) && decide (a.title < b.title))

/-- Stable insertion used to model Python `list.sort`. -/
def insertSorted (lt : α → α → Bool) (x : α) : List α → List α
  | [] => [x]
  | y :: ys => if lt y x then y :: insertSorted lt x ys else x :: y :: ys

def pySortStable (lt : α → α → Bool) (l : List α) : List α :=
  l.foldr (insertSorted lt) []

/-- main.py lines 203-258 (`show_campaign_options`): the ids of the
campaigns displayed, in display order.  When `show_all` is false every
priority is clamped up to at least 1 (line 243); campaigns are sorted by
`(-priority, title)` and only those with positive priority are shown. -/
def showCampaignIds (primary_concern life_stage : String)
    (dependents user_age : Int) (show_all : Bool) : List String :=
  let cs := allCampaignEntries primary_concern life_stage dependents user_age
  let cs := if show_all then cs.map (fun c => { c with priority := 1 })
    else cs.map (fun c => { c with priority := max 1 c.priority })
  let sorted := pySortStable campaignKeyLt cs
  (sorted.filter (fun c => decide (c.priority > 0))).map (fun c => c.cid)

/-! ### main.py: message deduplication (lines 516-552) -/

abbrev MsgCache := List (String × ℚ)

def cacheHas (c : MsgCache) (k : String) : Bool := c.any (fun kv => kv.1 == k)

def cacheSet (k : String) (t : ℚ) (c : MsgCache) : MsgCache :=
  if c.any (fun kv => kv.1 == k) then
    c.map (fun kv => if kv.1 == k then (k, t) else kv)
  else c ++ [(k, t)]

def MESSAGE_CACHE_TTL : ℚ := 60

/-- The cache comprehension at lines 548-552 (both time conditions are
taken at the same instant `now`). -/
def cacheCleanup (now : ℚ) (c : MsgCache) : MsgCache :=
  c.filter (fun kv => decide (now - kv.2 < MESSAGE_CACHE_TTL))

/-- main.py lines 516-552: the deduplication gate applied to a message
while a campaign is active.  `message_content` is always a string there
(line 484), so `is_button_click` at line 517 is always false and the
`message_type` test at line 527 decides whether deduplication applies.
Returns whether the campaign handler is invoked (false = the message is
silently dropped by `continue`, no response is sent) and the new cache. -/
def dedupStep (conv_id message_content message_type : String) (now : ℚ)
    (c : MsgCache) : Bool × MsgCache :=
  if message_type != "choice" then
    let key := conv_id ++ "_" ++ message_content
    if cacheHas c key then (false, c)
    else
      let fingerprint := conv_id ++ ":" ++ message_content.trim.toLower
      let c := cacheSet key now c
      let c := cacheSet fingerprint now c
      (true, cacheCleanup now c)
  else (true, cacheCleanup now c)

/-- Running the dedup gate over a sequence of (content, type, time). -/
def dedupRun (conv_id : String) (c : MsgCache)
    (msgs : List (String × String × ℚ)) : MsgCache :=
  msgs.foldl (fun c m => (dedupStep conv_id m.1 m.2.1 m.2.2 c).2) c

/-! ### main.py: orchestrator state and the reset_to_main handling -/

structure ConvState where
  step : String := "get_name"
  user_data : PyDict := []
  active_campaign : Option String := none
deriving DecidableEq

/-- main.py lines 626-663: after a campaign handler returns `result`, the
orchestrator skips empty responses (line 648) and on a `reset_to_main`
result clears `active_campaign` and `user_data` and resets the step to
`get_name` (lines 654-663).  Returns the new state and whether the reset
branch fired. -/
def orchHandleResult (st : ConvState) (result : Resp) : ConvState × Bool :=
  if result.content.isEmptyText && result.buttons.isEmpty
      && (result.rtype != "campaign_selection") then
    (st, false)
  else if result.rtype == "reset_to_main" then
    ({ step := "get_name", user_data := [], active_campaign := none }, true)
  else (st, false)

/-! ### Campaign1/sgsa.py: Satu Gaji Satu Harapan -/

namespace Sgsa

structure State where
  current_step : String := "welcome"
  user_data : PyDict := []
  welcome_shown : Bool := false
deriving DecidableEq

def freshState : State := {}

/-- Lines 548 / 604: `isinstance(message, dict) and ('value' in message or
'type' in message)`. -/
def isButtonClick : Msg → Bool
  | .dict d => d.value?.isSome || d.mtype?.isSome
  | .str _ => false

/-- Lines 549-552 / 604-611: the lowered, stripped message text. -/
def msgText (m : Msg) : String :=
  if isButtonClick m then
    (match m with
     | .dict d => d.value?.getD ""
     | .str _ => "").toLower.trim
  else if m.truthy then m.pyStr.toLower.trim else ""

/-- Lines 558-563 / 1211-1216: the reset_to_main control response. -/
def resetResp : Resp :=
  { rtype := "reset_to_main", content := .lit "Returning to main menu..." }

/-- Lines 289-296: the welcome message with yes/no buttons. -/
def welcomeResp : Resp :=
  { rtype := "buttons", content := .templ "sgsa_welcome" [],
    buttons := ["yes", "no"], next_step := some "welcome_response" }

/-- Lines 206-236 (`show_benefits`). -/
def benefitsResp : Resp :=
  { rtype := "buttons", content := .templ "sgsa_benefits" [],
    buttons := ["get_quote", "no"], next_step := some "premium_decision" }

/-- Lines 723-728: the outer `except` response. -/
def processErrorResp : Resp :=
  { rtype := "message", content := .templ "sgsa_process_error" [],
    next_step := some "welcome" }

/-- Lines 360-373 / 449-462: extract `button_value` / `text_input`. -/
def extractBtnText (m : Msg) : Option String × String :=
  match m with
  | .dict d =>
    if d.value?.isSome then (some ((d.value?.getD "").toLower.trim), "")
    else if d.text?.isSome then (none, (d.text?.getD "").toLower.trim)
    else (none, "")
  | .str s => (none, s.toLower.trim)

/-- Lines 341-429 (`_handle_welcome_response`). -/
def handleWelcomeResponse (st : State) (arg : Msg) : StepOut State :=
  let (button_value, text_input) := extractBtnText arg
  let positive := ["yes", "y", "ya", "yeah", "yes, tell me more"]
  let negative := ["no", "n", "no thanks"]
  let bv := button_value.getD ""
  if (button_value.isSome && positive.contains bv)
      || (!text_input.isEmpty && positive.contains text_input) then
    ⟨{ st with current_step := "awaiting_premium_decision" }, benefitsResp, 0⟩
  else if (button_value.isSome && negative.contains bv)
      || (!text_input.isEmpty && negative.contains text_input) then
    ⟨{ st with current_step := "complete" },
      { rtype := "buttons", content := .templ "sgsa_decline_thanks" [],
        buttons := ["main_menu"], completed := true }, 0⟩
  else ⟨st, welcomeResp, 0⟩

/-- Lines 306-339 (`_handle_welcome`). -/
def handleWelcome (st : State) (arg : Msg) : StepOut State :=
  if st.welcome_shown then handleWelcomeResponse st arg
  else ⟨{ st with welcome_shown := true }, welcomeResp, 0⟩

/-- Lines 431-517 (`_handle_premium_decision`). -/
def handlePremiumDecision (st : State) (arg : Msg) : StepOut State :=
  let (button_value, text_input) := extractBtnText arg
  let positive := ["yes", "y", "ya", "yeah", "show coverage", "show me", "get_quote"]
  let negative := ["no", "n", "no thanks"]
  let bv := button_value.getD ""
  if (button_value.isSome && positive.contains bv)
      || (!text_input.isEmpty && positive.contains text_input) then
    ⟨{ st with current_step := "get_annual_income" },
      { rtype := "message", content := .templ "sgsa_ask_income" [],
        next_step := some "get_annual_income" }, 0⟩
  else if (button_value.isSome && negative.contains bv)
      || (!text_input.isEmpty && negative.contains text_input) then
    ⟨{ st with current_step := "complete" },
      { rtype := "buttons", content := .templ "sgsa_no_problem" [],
        buttons := ["main_menu"], completed := true }, 0⟩
  else
    ⟨{ st with current_step := "awaiting_premium_decision" },
      { rtype := "buttons", content := .templ "sgsa_not_sure_benefits" [],
        buttons := ["get_quote", "no"], next_step := some "premium_decision" }, 0⟩

/-- The word-to-number table at lines 777-784 (insertion order). -/
def incomeWords : List (String × ℚ) :=
  [("one", 1), ("two", 2), ("three", 3), ("four", 4), ("five", 5),
   ("six", 6), ("seven", 7), ("eight", 8), ("nine", 9), ("ten", 10),
   ("eleven", 11), ("twelve", 12), ("thirteen", 13), ("fourteen", 14),
   ("fifteen", 15), ("sixteen", 16), ("seventeen", 17), ("eighteen", 18),
   ("nineteen", 19), ("twenty", 20), ("thirty", 30), ("forty", 40),
   ("fifty", 50), ("sixty", 60), ("seventy", 70), ("eighty", 80),
   ("ninety", 90), ("hundred", 100), ("thousand", 1000)]

/-- The word-to-number table at lines 920-926 (no hundred/thousand). -/
def ageWords : List (String × Nat) :=
  [("one", 1), ("two", 2), ("three", 3), ("four", 4), ("five", 5),
   ("six", 6), ("seven", 7), ("eight", 8), ("nine", 9), ("ten", 10),
   ("eleven", 11), ("twelve", 12), ("thirteen", 13), ("fourteen", 14),
   ("fifteen", 15), ("sixteen", 16), ("seventeen", 17), ("eighteen", 18),
   ("nineteen", 19), ("twenty", 20), ("thirty", 30), ("forty", 40),
   ("fifty", 50), ("sixty", 60), ("seventy", 70)]

/-- Lines 821-849 / 868-911: derive the age from a stored `dob` value;
`none` models the exceptions (bad type, wrong shape, invalid date) that
the surrounding `try` catches before falling back to manual entry.
Accepts `DD/MM/YYYY` (when the string contains a slash) or `YYYY-MM-DD`. -/
def dobAge (today : PyDate) (v : PyVal) : Option Int :=
  match v with
  | .str dob =>
    if strIn "/" dob then
      match parseDMY dob with
      | some (d, m, y) => if validDate y m d then some (ageOn today y m d) else none
      | none => none
    else
      match dob.splitOn "-" with
      | [y, m, d] =>
        if allDigits y.toList && allDigits m.toList && allDigits d.toList then
          let y := (natFromDigits y.toList : Int)
          let m := (natFromDigits m.toList : Int)
          let d := (natFromDigits d.toList : Int)
          if validDate y m d then some (ageOn today y m d) else none
        else none
      | _ => none
  | _ => none

/-- Lines 730-863 (`_handle_get_annual_income`). -/
def handleGetAnnualIncome (today : PyDate) (st : State) (arg : Msg) :
    StepOut State :=
  let message_text :=
    match arg with
    | .dict d =>
      if d.text?.isSome then (d.text?.getD "").trim
      else if d.value?.isSome then (d.value?.getD "").trim
      else arg.pyStr.trim
    | .str s => s.trim
  if message_text.isEmpty then
    ⟨st, { content := .templ "sgsa_income_empty" [],
           next_step := some "get_annual_income" }, 0⟩
  else
    let cleaned := keepNumChars message_text
    let income? : Option ℚ :=
      if cleaned.isEmpty then
        (incomeWords.find? (fun wn => strIn wn.1 message_text.toLower)).map
          (fun wn => wn.2 * 1000)
      else pyFloat cleaned
    match income? with
    | none =>
      ⟨st, { content := .templ "sgsa_income_error" [],
             next_step := some "get_annual_income" }, 0⟩
    | some annual_income =>
      if annual_income ≤ 0 then
        ⟨st, { content := .templ "sgsa_income_positive" [],
               next_step := some "get_annual_income" }, 0⟩
      else
        let st := { st with
          user_data := dset "annual_income" (.float annual_income) st.user_data }
        if dTruthy st.user_data "dob" then
          match dobAge today (dgetD st.user_data "dob" .pynone) with
          | some age =>
            ⟨{ st with
                user_data := dset "age" (.int age) st.user_data
                current_step := "get_years_coverage" },
              { content := .templ "sgsa_income_age_years" [annual_income, (age : ℚ)],
                next_step := some "get_years_coverage" }, 0⟩
          | none =>
            ⟨{ st with current_step := "get_age" },
              { content := .templ "sgsa_income_ask_age" [annual_income],
                next_step := some "get_age" }, 0⟩
        else
          ⟨{ st with current_step := "get_age" },
            { content := .templ "sgsa_income_ask_age" [annual_income],
              next_step := some "get_age" }, 0⟩

/-- Lines 865-1019 (`_handle_get_age`). -/
def handleGetAge (today : PyDate) (st : State) (arg : Msg) : StepOut State :=
  if dTruthy st.user_data "dob" then
    match dobAge today (dgetD st.user_data "dob" .pynone) with
    | some age =>
      ⟨{ st with
          user_data := dset "age" (.int age) st.user_data
          current_step := "get_years_coverage" },
        { content := .templ "sgsa_age_from_dob" [(age : ℚ)],
          next_step := some "get_years_coverage" }, 0⟩
    | none => handleGetAgeManual st arg
  else handleGetAgeManual st arg
where
  handleGetAgeManual (st : State) (arg : Msg) : StepOut State :=
    let message_str := arg.pyStr.trim
    let message_lower := message_str.toLower
    let age? : Option Nat :=
      match ageWords.find? (fun wn => strIn wn.1 message_lower) with
      | some wn => some wn.2
      | none => firstDigitRun message_str
    match age? with
    | none => ⟨st, { content := .templ "sgsa_age_invalid" [] }, 0⟩
    | some age =>
      if age < 18 || age > 70 then
        ⟨st, { content := .templ "sgsa_age_range" [] }, 0⟩
      else
        ⟨{ st with
            user_data := dset "age" (.int age) st.user_data
            current_step := "get_years_coverage" },
          { content := .templ "sgsa_age_ok_years" [(age : ℚ)],
            next_step := some "get_years_coverage" }, 0⟩

/-- Lines 1065-1174 (`_handle_calculate_premium`).  The sheet append at
lines 1105-1131 is attempted exactly once here; its `except` swallows any
failure, so `sheetFails` cannot influence the result. -/
def handleCalculatePremium (today : PyDate) (sheetFails : Bool) (st : State)
    (_arg : Msg) : StepOut State :=
  let ai := dgetD st.user_data "annual_income" .pynone
  let ag := dgetD st.user_data "age" .pynone
  let yc := dgetD st.user_data "years_of_coverage" .pynone
  if !(ai.truthy && ag.truthy && yc.truthy) then
    ⟨st, { content := .templ "sgsa_calc_error" [], next_step := some "welcome" }, 0⟩
  else
    match pyFloatOfVal ai, pyIntOfVal ag, pyIntOfVal yc with
    | some annual_income, some age, some years_of_coverage =>
      let info := calculate_premium_estimation annual_income years_of_coverage age
      ⟨{ st with current_step := "handle_agent_decision" },
        { rtype := "buttons",
          content := .templ "sgsa_premium_result"
            [annual_income, (age : ℚ), (years_of_coverage : ℚ),
             info.recommended_coverage, info.annual_premium, info.monthly_premium],
          buttons := ["yes_contact", "no_contact"],
          next_step := some "handle_agent_decision" }, 1⟩
    | _, _, _ =>
      ⟨st, { content := .templ "sgsa_calc_error" [], next_step := some "welcome" }, 0⟩

/-- Lines 1021-1063 (`_handle_years_coverage`). -/
def handleYearsCoverage (today : PyDate) (sheetFails : Bool) (st : State)
    (arg : Msg) : StepOut State :=
  match pyInt arg.pyStr.trim with
  | none => ⟨st, { content := .templ "sgsa_years_invalid" [] }, 0⟩
  | some years =>
    if years < 1 || years > 50 then
      ⟨st, { content := .templ "sgsa_years_range" [] }, 0⟩
    else
      let st := { st with
        user_data := dset "years_of_coverage" (.int years) st.user_data
        current_step := "calculate_premium" }
      handleCalculatePremium today sheetFails st arg

/-- Lines 1176-1245 (`_handle_agent_decision`). -/
def handleAgentDecision (st : State) (arg : Msg) : StepOut State :=
  let message :=
    match arg with
    | .dict d => if d.value?.isSome then Msg.str (d.value?.getD "") else arg
    | .str _ => arg
  let message_lower := message.pyStr.toLower.trim
  if ["yes", "y", "ya", "yeah", "yes_contact", "contact_agent"].contains message_lower then
    ⟨st, { rtype := "buttons", content := .templ "sgsa_agent_confirm" [],
           buttons := ["main_menu"], next_step := some "handle_agent_decision" }, 0⟩
  else if ["no", "n", "no_contact", "no thanks"].contains message_lower then
    ⟨st, { rtype := "buttons", content := .templ "sgsa_agent_decline" [],
           buttons := ["main_menu"], next_step := some "handle_agent_decision" }, 0⟩
  else if message_lower == "main_menu" || message_lower == "restart" then
    ⟨st, resetResp, 0⟩
  else
    ⟨st, { rtype := "buttons", content := .templ "sgsa_agent_reask" [],
           buttons := ["contact_agent", "no_contact", "main_menu"],
           next_step := some "offer_agent_contact" }, 0⟩

/-- The steps for which `hasattr(self, f"_handle_{step}")` holds
(line 640), i.e. the generic dispatch path applies. -/
def handlerSteps : List String :=
  ["welcome", "welcome_response", "premium_decision", "get_annual_income",
   "get_age", "years_coverage", "calculate_premium", "agent_decision"]

def callHandler (today : PyDate) (sheetFails : Bool) (st : State)
    (step : String) (arg : Msg) : StepOut State :=
  if step == "welcome" then handleWelcome st arg
  else if step == "welcome_response" then handleWelcomeResponse st arg
  else if step == "premium_decision" then handlePremiumDecision st arg
  else if step == "get_annual_income" then handleGetAnnualIncome today st arg
  else if step == "get_age" then handleGetAge today st arg
  else if step == "years_coverage" then handleYearsCoverage today sheetFails st arg
  else if step == "calculate_premium" then handleCalculatePremium today sheetFails st arg
  else handleAgentDecision st arg

/-- Lines 582-728: the body of the outer `try`.  `fuel` bounds the one
self-recursive call at lines 633-636 (the `premium_estimation` fallback),
which re-enters the full `process_message`.  An `Except.error` is a Python
exception reaching the outer boundary: the only such site is the
`state["data"]` subscript at lines 703/709 (a `CampaignState` is not
subscriptable, so the `complete` step raises `TypeError`). -/
def processCore (today : PyDate) (sheetFails : Bool) :
    Nat → State → Msg → PyDict → PyRes State
  | fuel, st0, msg, user_data =>
    let st := if st0.current_step == "" then { st0 with current_step := "welcome" }
      else st0
    let st := if !user_data.isEmpty then
        { st with user_data := dupdate st.user_data user_data }
      else st
    let is_button := isButtonClick msg
    let mt := msgText msg
    if mt == "restart" then
      .ok ⟨{ freshState with current_step := "welcome", welcome_shown := true },
        welcomeResp, 0⟩
    else if mt == "start" then
      .ok ⟨{ st with current_step := "welcome", welcome_shown := true },
        welcomeResp, 0⟩
    else
      let current_step := st.current_step
      if current_step == "premium_estimation" then
        match fuel with
        | 0 => .error (st, "RecursionError")
        | fuel' + 1 =>
          -- the recursive `self.process_message(user_id, message, ws)` call:
          -- guard and boundary re-applied, no `user_data` kwarg
          let st1 := { st with current_step := "awaiting_premium_decision" }
          .ok (if mt == "main_menu" then ⟨freshState, resetResp, 0⟩
            else match processCore today sheetFails fuel' st1 msg [] with
              | .ok o => o
              | .error (st', _) => ⟨st', processErrorResp, 0⟩)
      else if handlerSteps.contains current_step then
        let arg := if is_button then msg else Msg.str mt
        let out := callHandler today sheetFails st current_step arg
        let st' := match out.resp.next_step with
          | some ns => { out.state with current_step := ns }
          | none => out.state
        .ok ⟨st', out.resp, out.rows⟩
      else if current_step == "get_years_coverage" then
        .ok (handleYearsCoverage today sheetFails st msg)
      else if current_step == "handle_agent_decision" then
        .ok (handleAgentDecision st msg)
      else if current_step == "complete" then
        .error (st, "TypeError")
      else
        .ok ⟨st, { content := .templ "sgsa_no_handler" [],
                   next_step := some "welcome" }, 0⟩

/-- Lines 546-728 (`process_message`): the `main_menu` guard (lines
546-563, outside the `try`) followed by the `try` body with the boundary
handler of lines 720-728. -/
def process_message (today : PyDate) (sheetFails : Bool) (fuel : Nat)
    (st : State) (msg : Msg) (user_data : PyDict) : StepOut State :=
  let mt := msgText msg
  if mt == "main_menu" then ⟨freshState, resetResp, 0⟩
  else match processCore today sheetFails fuel st msg user_data with
    | .ok o => o
    | .error (st', _) => ⟨st', processErrorResp, 0⟩

end Sgsa

/-! ### Campaign2/tabung_warisan.py: Tabung Warisan -/

/-- Python `message.lower()`: raises `AttributeError` on a dict. -/
def msgLower : Msg → Except String String
  | .str s => .ok s.toLower
  | .dict _ => .error "AttributeError"

/-- Python `message.strip()`: raises `AttributeError` on a dict. -/
def msgStrip : Msg → Except String String
  | .str s => .ok s.trim
  | .dict _ => .error "AttributeError"

/-- `''.join(c for c in message if c.isdigit() or c == '.')`: iterating a
dict yields its keys, none of which is a digit or a dot, so a dict message
filters to the empty string (and `float('')` then raises `ValueError`). -/
def keepNumCharsMsg : Msg → String
  | .str s => keepNumChars s
  | .dict _ => ""

namespace Warisan

structure State where
  current_step : String := "welcome"
  user_data : PyDict := []
  user_name : String := ""
  user_age : Int := 0
  desired_legacy : ℚ := 0
  welcome_shown : Bool := false
deriving DecidableEq

def freshState : State := {}

def mainMenuButtons : List String := ["main_menu", "ask_question"]

def legacyButtons : List String :=
  ["500000", "1000000", "1500000", "2000000", "other_amount"]

/-- Lines 154-166 (`_get_welcome_response`): note `type` is `"message"`. -/
def welcomeResp : Resp :=
  { rtype := "message", content := .templ "warisan_welcome" [],
    buttons := ["yes_benefits", "no_thanks"],
    next_step := some "handle_welcome_response" }

/-- Lines 179-195 (`_get_benefits_response`). -/
def benefitsResp : Resp :=
  { rtype := "buttons", content := .templ "warisan_benefits" [],
    buttons := ["yes_coverage", "no_thanks"],
    next_step := some "handle_benefits_response" }

/-- Lines 500-504: the reset_to_main response of the command guard. -/
def resetMainResp : Resp :=
  { rtype := "reset_to_main", content := .templ "warisan_reset_main" [] }

/-- Lines 735-740: the fallback reset for an unrecognized step. -/
def fallbackResetResp : Resp :=
  { rtype := "reset_to_main", content := .lit "Returning to main menu..." }

/-- Lines 746-750: the outer `except` response. -/
def errorResp : Resp :=
  { rtype := "message", content := .templ "warisan_process_error" [],
    next_step := some "welcome" }

def negativeWords : List String :=
  ["no", "no_thanks", "maybe later", "later", "tidak", "tak", "x", "nope"]

/-- Line 498: the command text used by the main_menu/restart guard. -/
def cmdText (m : Msg) : String :=
  match m with
  | .str s => s.toLower.trim
  | .dict d => (d.value?.getD "PYDICTREPR").toLower.trim

/-- The `\w` character class (inputs here are ASCII). -/
def isWordChar (c : Char) : Bool := c.isAlphanum || c == '_'

def isEmailClassChar (c : Char) : Bool := isWordChar c || c == '.' || c == '-'

/-- `re.match(r"^[\w\.-]+@[\w\.-]+\.\w+$", contact)` (line 438). -/
def emailOk (s : String) : Bool :=
  match s.splitOn "@" with
  | [a, b] =>
    if a.isEmpty || !a.toList.all isEmailClassChar then false
    else
      let rev := b.toList.reverse
      let yRev := rev.takeWhile (fun c => c ≠ '.')
      if yRev.length == rev.length then false
      else
        let x := (rev.drop (yRev.length + 1)).reverse
        !yRev.isEmpty && yRev.all isWordChar
          && !x.isEmpty && x.all isEmailClassChar
  | _ => false

/-- `re.match(r"^(\+?6?01)[0-46-9]-*[0-9]{7,8}$", contact)` (line 439). -/
def phoneOk (s : String) : Bool :=
  let l := s.toList
  let l := match l with | '+' :: r => r | _ => l
  let l := match l with | '6' :: r => r | _ => l
  match l with
  | '0' :: '1' :: c :: rest =>
    (c.isDigit && c ≠ '5')
      && (let ds := rest.dropWhile (fun x => x == '-')
          ds.all Char.isDigit && (ds.length == 7 || ds.length == 8))
  | _ => false

/-- Lines 323-369 (`_handle_age`): `int(message.strip())` raises
`AttributeError` for dict messages (uncaught by its `except ValueError`). -/
def handleAge (st : State) (msg : Msg) : PyRes State :=
  if st.current_step == "get_age" then
    match msgStrip msg with
    | .error e => .error (st, e)
    | .ok stripped =>
      match pyInt stripped with
      | none =>
        .ok ⟨st, { content := .templ "warisan_age_invalid" [],
                   next_step := some "get_age" }, 0⟩
      | some age =>
        if !(18 ≤ age && age ≤ 70) then
          .ok ⟨st, { content := .templ "warisan_age_invalid" [],
                     next_step := some "get_age" }, 0⟩
        else
          let premium := calculate_warisan_premium_estimation st.desired_legacy age
          let monthly_premium := premium / 12
          .ok ⟨{ st with user_age := age, current_step := "offer_agent_contact" },
            { rtype := "buttons",
              content := .templ "warisan_age_premium"
                [(age : ℚ), st.desired_legacy, premium, monthly_premium],
              buttons := ["contact_agent", "no_contact"],
              next_step := some "offer_agent_contact" }, 0⟩
  else
    .ok ⟨st, { content := .templ "warisan_age_prompt" [],
               next_step := some "get_age" }, 0⟩

/-- Lines 371-432 (`_handle_agent_contact`); its own `except` makes the
body total. -/
def handleAgentContact (st : State) (msg : Msg) : StepOut State :=
  let message_lower :=
    match msg with
    | .dict d =>
      (if d.value?.isSome then d.value?.getD ""
       else if d.text?.isSome then d.text?.getD ""
       else msg.pyStr).toLower.trim
    | .str s => s.toLower.trim
  if message_lower == "contact_agent" then
    ⟨{ st with current_step := "get_contact_info" },
      { content := .templ "warisan_ask_contact_info" [],
        next_step := some "get_contact_info" }, 0⟩
  else if message_lower == "no_contact" then
    ⟨{ st with current_step := "main_menu" },
      { rtype := "buttons", content := .templ "warisan_no_problem" [],
        buttons := mainMenuButtons, next_step := some "main_menu" }, 0⟩
  else if message_lower == "main_menu" || message_lower == "restart" then
    ⟨st, { rtype := "reset_to_main",
           content := .lit "Returning to main menu..." }, 0⟩
  else
    ⟨st, { rtype := "buttons", content := .templ "warisan_agent_reask" [],
           buttons := ["contact_agent", "no_contact", "main_menu"],
           next_step := some "offer_agent_contact" }, 0⟩

/-- Lines 434-462 (`_handle_contact_info`); its bare `except` catches the
dict `AttributeError` as well. -/
def handleContactInfo (st : State) (msg : Msg) : StepOut State :=
  match msg with
  | .dict _ =>
    ⟨st, { content := .templ "warisan_contact_error" [],
           next_step := some "contact_confirmed" }, 0⟩
  | .str s =>
    let contact := s.trim
    if !(emailOk contact || phoneOk contact) then
      ⟨st, { content := .templ "warisan_contact_invalid" [],
             next_step := some "get_contact_info" }, 0⟩
    else
      ⟨{ st with
          user_data := dset "contact_info" (.str contact) st.user_data
          current_step := "contact_confirmed" },
        { rtype := "buttons", content := .templ "warisan_contact_thanks" [],
          buttons := mainMenuButtons,
          next_step := some "contact_confirmed" }, 0⟩

/-- Lines 477-740: the body of the `try` in `process_message`.  The sheet
append (lines 590-613) happens only on the predefined-amount path with a
valid inherited age; its `except` swallows failures, so `sheetFails` has
no influence.  `hasattr(state, 'welcome_shown')` is always true for the
dataclass, so the welcome test reduces to `current_step in ["", "welcome"]`. -/
def processCore (sheetFails : Bool) (st0 : State) (msg : Msg)
    (user_data : PyDict) : PyRes State :=
  let st := st0
  let st :=
    if !user_data.isEmpty then
      let st := { st with user_data := dupdate st.user_data user_data }
      let st :=
        if dTruthy user_data "age" then
          match pyIntOfVal (dgetD user_data "age" .pynone) with
          | some a => { st with user_age := a }
          | none => st
        else st
      if dTruthy user_data "name" then
        { st with user_name := (dgetD user_data "name" .pynone).pyStr }
      else st
    else st
  let msg_lower := cmdText msg
  if ["main_menu", "restart", "start"].contains msg_lower then
    .ok ⟨st, resetMainResp, 0⟩
  else if st.current_step == "" || st.current_step == "welcome" then
    .ok ⟨{ st with current_step := "handle_welcome_response", welcome_shown := true },
      welcomeResp, 0⟩
  else if st.current_step == "handle_welcome_response" then
    match msgLower msg with
    | .error e => .error (st, e)
    | .ok ml =>
      if !(["yes", "yes_benefits", "no", "no_thanks"].contains ml) then
        .ok ⟨st, welcomeResp, 0⟩
      else if ["yes", "yes_benefits"].contains ml then
        .ok ⟨{ st with current_step := "handle_benefits_response" }, benefitsResp, 0⟩
      else if negativeWords.contains ml then
        .ok ⟨st, { rtype := "buttons", content := .templ "warisan_welcome_decline" [],
                   buttons := ["main_menu"] }, 0⟩
      else .ok ⟨st, welcomeResp, 0⟩
  else if st.current_step == "handle_benefits_response" then
    match msgLower msg with
    | .error e => .error (st, e)
    | .ok ml =>
      if ["yes", "yes_coverage"].contains ml then
        .ok ⟨{ st with current_step := "get_legacy_amount" },
          { rtype := "buttons", content := .templ "warisan_ask_legacy" [],
            buttons := legacyButtons, next_step := some "get_legacy_amount" }, 0⟩
      else if negativeWords.contains ml then
        .ok ⟨st, { rtype := "buttons", content := .templ "warisan_benefits_decline" [],
                   buttons := ["main_menu"] }, 0⟩
      else .ok ⟨st, benefitsResp, 0⟩
  else if st.current_step == "get_legacy_amount" then
    match msgLower msg with
    | .error e => .error (st, e)
    | .ok ml =>
      if ["other", "other amount", "other_amount"].contains ml then
        .ok ⟨{ st with current_step := "get_custom_legacy_amount" },
          { content := .templ "warisan_ask_custom_legacy" [],
            next_step := some "get_custom_legacy_amount" }, 0⟩
      else
        match pyFloat (keepNumCharsMsg msg) with
        | none =>
          .ok ⟨st, { rtype := "buttons",
                     content := .templ "warisan_legacy_invalid" [],
                     buttons := legacyButtons,
                     next_step := some "get_legacy_amount" }, 0⟩
        | some amount =>
          let st := { st with desired_legacy := amount, current_step := "get_age" }
          if st.user_age != 0 && 18 ≤ st.user_age && st.user_age ≤ 70 then
            let age := st.user_age
            let st := { st with current_step := "calculate_premium" }
            let premium := calculate_warisan_premium_estimation amount age
            let monthly_premium := premium / 12
            .ok ⟨st, { rtype := "buttons",
                       content := .templ "warisan_premium_offer"
                         [amount, (age : ℚ), premium, monthly_premium],
                       buttons := ["contact_agent", "no_contact"],
                       next_step := some "offer_agent_contact" }, 1⟩
          else
            .ok ⟨st, { content := .templ "warisan_legacy_ask_age" [amount],
                       next_step := some "get_age" }, 0⟩
  else if st.current_step == "get_custom_legacy_amount" then
    match pyFloat (keepNumCharsMsg msg) with
    | none =>
      .ok ⟨st, { content := .templ "warisan_custom_invalid" [],
                 next_step := some "get_custom_legacy_amount" }, 0⟩
    | some amount =>
      if amount < 1000 then
        .ok ⟨st, { content := .templ "warisan_custom_minimum" [],
                   next_step := some "get_custom_legacy_amount" }, 0⟩
      else
        let st := { st with desired_legacy := amount, current_step := "get_age" }
        if st.user_age != 0 && 18 ≤ st.user_age && st.user_age ≤ 70 then
          let age := st.user_age
          let st := { st with current_step := "calculate_premium" }
          let premium := calculate_warisan_premium_estimation amount age
          let monthly_premium := premium / 12
          .ok ⟨st, { rtype := "buttons",
                     content := .templ "warisan_premium_offer"
                       [amount, (age : ℚ), premium, monthly_premium],
                     buttons := ["contact_agent", "no_contact"],
                     next_step := some "offer_agent_contact" }, 0⟩
        else
          .ok ⟨st, { content := .templ "warisan_legacy_ask_age" [amount],
                     next_step := some "get_age" }, 0⟩
  else if st.current_step == "get_age" then
    handleAge st msg
  else if st.current_step == "offer_agent_contact" then
    .ok (handleAgentContact st msg)
  else if st.current_step == "get_contact_info" then
    .ok (handleContactInfo st msg)
  else if st.current_step == "end_conversation"
      || st.current_step == "contact_confirmed" then
    .ok ⟨st, { rtype := "buttons", content := .templ "warisan_thanks_end" [],
               buttons := ["main_menu"], next_step := some "main_menu" }, 0⟩
  else
    .ok ⟨freshState, fallbackResetResp, 0⟩

/-- Lines 465-750 (`process_message`): the `try` body with the boundary
handler of lines 742-750. -/
def process_message (sheetFails : Bool) (st : State) (msg : Msg)
    (user_data : PyDict) : StepOut State :=
  match processCore sheetFails st msg user_data with
  | .ok o => o
  | .error (st', _) => ⟨st', errorResp, 0⟩

end Warisan

/-! ### Campaign3/masa_depan_anak_kita.py: Masa Depan Anak Kita -/

namespace Mdk

structure State where
  current_step : String := "welcome"
  user_data : PyDict := []
  child_age : Option Int := none
  monthly_saving : Option ℚ := none
deriving DecidableEq

def freshState : State := {}

/-- Lines 62-66 (`_is_affirmative`): substring containment. -/
def affirmWords : List String :=
  ["yes", "y", "ya", "yeah", "yup", "yep", "sure", "ok", "okay",
   "alright", "continue", "proceed", "affirmative", "certainly",
   "definitely", "absolutely", "yes please", "of course"]

def isAffirmative (text : String) : Bool :=
  !text.isEmpty && affirmWords.any (fun w => strIn w text.toLower)

/-- Lines 68-76 (`_is_negative`): substring containment. -/
def negWords : List String :=
  ["no", "n", "nope", "nah", "no thanks", "not now", "not yet",
   "later", "maybe later", "i\x27ll pass", "skip", "stop", "cancel",
   "exit", "quit", "end"]

def isNegative (text : String) : Bool :=
  !text.isEmpty && negWords.any (fun w => strIn w text.toLower)

def helpCommands : List String := ["help", "what can you do", "how does this work"]

/-- Lines 836-844 / 801-853 (`start`): resets the state (clearing
`user_data`, since `start` is called without the `user_data` kwarg). -/
def startResp : Resp :=
  { rtype := "buttons", content := .templ "mdk_welcome" [],
    buttons := ["yes", "no"], next_step := some "welcome" }

def resetMainResp : Resp :=
  { rtype := "reset_to_main", content := .lit "Returning to main menu..." }

/-- Lines 754-759: the outer `except` response (the handler also resets
`current_step` to `welcome`). -/
def errorResp : Resp :=
  { rtype := "message", content := .templ "mdk_process_error" [],
    next_step := some "welcome" }

/-- Lines 770-799 (`get_plan_explanation`). -/
def explanationResp : Resp :=
  { rtype := "buttons", content := .templ "mdk_plan_explanation" [],
    buttons := ["yes", "no"], next_step := some "ask_about_estimation" }

def endOptionsResp (tag : String) : Resp :=
  { rtype := "buttons", content := .templ tag [],
    buttons := ["main_menu"], next_step := some "end_options" }

def savingButtons : List String := ["200", "300", "400", "500", "custom"]

/-- The amount table at lines 474-479, in insertion order. -/
def amountMap : List (String × Int) :=
  [("200", 200), ("1", 200), ("rm200", 200), ("rm 200", 200),
   ("300", 300), ("2", 300), ("rm300", 300), ("rm 300", 300),
   ("400", 400), ("3", 400), ("rm400", 400), ("rm 400", 400),
   ("500", 500), ("4", 500), ("rm500", 500), ("rm 500", 500)]

/-- Lines 486-489: exact key match or `rm<key>` / `rm <key>` substring. -/
def amountFromMap (message_lower : String) : Option Int :=
  (amountMap.find? (fun kv =>
    kv.1 == message_lower || strIn ("rm" ++ kv.1) message_lower
      || strIn ("rm " ++ kv.1) message_lower)).map (·.2)

/-- Lines 929-1025 (`calculate_results`): the predefined-amount
projection.  The annuity payment is `monthly_saving * 12` (line 943); one
sheet append is attempted (lines 950-974), failures swallowed. -/
def calculateResults (st : State) : StepOut State :=
  match st.child_age, st.monthly_saving with
  | some child_age, some monthly_saving =>
    let years := (18 - child_age).toNat
    let annual_contribution := monthly_saving * 12
    let fv_low := future_value_annuity annual_contribution 0.06 years
    let fv_base := future_value_annuity annual_contribution 0.08 years
    let fv_high := future_value_annuity annual_contribution 0.10 years
    ⟨{ st with current_step := "complete" },
      { rtype := "buttons",
        content := .templ "mdk_projection"
          [(child_age : ℚ), (years : ℚ), monthly_saving, fv_low, fv_base, fv_high],
        buttons := ["contact_agent", "no_contact"],
        next_step := some "complete" }, 1⟩
  | _, _ =>
    -- `18 - state.child_age` with a `None` age raises `TypeError`,
    -- caught by the function's own `except` (lines 1018-1025)
    ⟨st, { content := .templ "mdk_results_error" [],
           next_step := some "error" }, 0⟩

/-- Lines 1027-1063 (`handle_restart`). -/
def handleRestart : StepOut State :=
  ⟨{ freshState with current_step := "ask_about_plan" },
    { rtype := "buttons", content := .templ "mdk_restart_welcome" [],
      buttons := ["yes", "no"],
      next_step := some "waiting_for_plan_response" }, 0⟩

/-- Lines 212-745: the body of the `try` in `process_message`.  The only
raise reaching the boundary is `message.strip()` at line 229 on a dict
message (`AttributeError`). -/
def processCore (sheetFails : Bool) (st0 : State) (msg : Msg)
    (user_data : PyDict) : PyRes State :=
  let st := if !user_data.isEmpty then
      { st0 with user_data := dupdate st0.user_data user_data }
    else st0
  let message_content := match msg with
    | .dict d => d.text?.getD ""
    | .str s => s
  match msgStrip msg with
  | .error e => .error (st, e)
  | .ok stripped =>
  if stripped.toLower == "start" then
    .ok ⟨{ freshState with current_step := "welcome" }, startResp, 0⟩
  else if helpCommands.contains (msg.pyStr.toLower) then
    .ok ⟨st, { content := .templ "mdk_help" [],
               next_step := some st.current_step }, 0⟩
  else
  let m := message_content.trim.toLower
  if m.isEmpty then
    .ok ⟨st, { content := .templ "mdk_didnt_catch" [],
               next_step := some st.current_step }, 0⟩
  else if m == "main_menu" || m == "restart" then
    .ok ⟨st, resetMainResp, 0⟩
  else if st.current_step == "welcome" then
    let is_button_click := m == "yes" || m == "no"
    if (is_button_click && m == "yes") || isAffirmative m then
      .ok ⟨{ st with current_step := "ask_about_estimation" }, explanationResp, 0⟩
    else if (is_button_click && m == "no") || isNegative m then
      .ok ⟨{ st with current_step := "end_options" },
        endOptionsResp "mdk_thanks_end", 0⟩
    else
      .ok ⟨st, { rtype := "buttons", content := .templ "mdk_welcome_reask" [],
                 buttons := ["yes", "no"], next_step := some "welcome" }, 0⟩
  else if st.current_step == "ask_about_plan" then
    if isAffirmative m || m == "yes" then
      .ok ⟨{ st with current_step := "ask_about_estimation" }, explanationResp, 0⟩
    else
      .ok ⟨{ st with current_step := "end_options" },
        endOptionsResp "mdk_no_problem_end", 0⟩
  else if st.current_step == "ask_about_estimation"
      || st.current_step == "waiting_for_estimation_response" then
    if isAffirmative m || strIn "estimate" m || m == "yes" then
      .ok ⟨{ st with current_step := "get_child_age" },
        { rtype := "question", content := .templ "mdk_ask_child_age" [],
          next_step := some "get_child_age" }, 0⟩
    else
      .ok ⟨{ st with current_step := "end_options" },
        endOptionsResp "mdk_no_problem_end", 0⟩
  else if st.current_step == "welcome_response" then
    if m == "yes" || m == "y" then
      .ok ⟨{ st with current_step := "get_child_age" },
        { content := .templ "mdk_ask_child_age_alt" [],
          next_step := some "waiting_for_age" }, 0⟩
    else
      .ok ⟨{ st with current_step := "end" },
        { content := .templ "mdk_goodbye" [],
          next_step := some "complete" }, 0⟩
  else if st.current_step == "get_child_age"
      || st.current_step == "waiting_for_age" then
    if m == "help" || m == "?" then
      .ok ⟨st, { content := .templ "mdk_age_help" [],
                 next_step := some "waiting_for_age" }, 0⟩
    else if m == "start over" || m == "restart" then
      .ok (handleRestart)
    else
      match (digitRuns m).head? with
      | none =>
        .ok ⟨st, { content := .templ "mdk_age_error" [],
                   next_step := some "waiting_for_age" }, 0⟩
      | some run =>
        let age := (natFromDigits run : Int)
        if age < 0 || age > 17 then
          .ok ⟨st, { content := .templ "mdk_age_error" [],
                     next_step := some "waiting_for_age" }, 0⟩
        else
          .ok ⟨{ st with child_age := some age, current_step := "get_monthly_saving" },
            { rtype := "buttons",
              content := .templ "mdk_ask_saving" [(age : ℚ), ((18 - age : Int) : ℚ)],
              buttons := savingButtons,
              next_step := some "waiting_for_saving" }, 0⟩
  else if st.current_step == "get_monthly_saving" then
    if m == "custom" || strIn "custom" m then
      .ok ⟨{ st with current_step := "get_custom_saving" },
        { content := .templ "mdk_ask_custom_saving" [],
          next_step := some "waiting_for_custom_saving" }, 0⟩
    else if ["yes", "y", "no", "n"].contains m then
      .ok ⟨st, { content := .templ "mdk_saving_clarify" [],
                 next_step := some "get_monthly_saving" }, 0⟩
    else
      let amount? : Option Int :=
        match amountFromMap m with
        | some a => some a
        | none =>
          match (digitRuns m).head? with
          | some run =>
            let a := (natFromDigits run : Int)
            if [200, 300, 400, 500].contains a then some a else none
          | none => none
      match amount? with
      | some amount =>
        if amount ≥ 100 then
          calculateResults
            { st with monthly_saving := some ((amount : ℚ)),
                      current_step := "calculate_results" } |> .ok
        else
          .ok ⟨st, { content := .templ "mdk_saving_error" [],
                     next_step := some "get_monthly_saving" }, 0⟩
      | none =>
        .ok ⟨st, { content := .templ "mdk_saving_error" [],
                   next_step := some "get_monthly_saving" }, 0⟩
  else if st.current_step == "get_custom_saving" then
    if ["back", "options", "show options"].contains m then
      .ok ⟨{ st with current_step := "get_monthly_saving" },
        { rtype := "buttons", content := .templ "mdk_saving_options" [],
          buttons := savingButtons,
          next_step := some "get_monthly_saving" }, 0⟩
    else
      match (digitRuns m).head? with
      | none =>
        .ok ⟨st, { content := .templ "mdk_custom_error" [],
                   next_step := some "get_custom_saving" }, 0⟩
      | some run =>
        let amount := (natFromDigits run : Int)
        if amount < 100 then
          .ok ⟨st, { content := .templ "mdk_custom_error" [],
                     next_step := some "get_custom_saving" }, 0⟩
        else if amount > 10000 then
          .ok ⟨st, { content := .templ "mdk_custom_error" [],
                     next_step := some "get_custom_saving" }, 0⟩
        else
          -- lines 568-636: the custom-amount projection; the annuity
          -- payment here is the *monthly* amount (lines 573-576);
          -- one sheet append (lines 578-601), failures swallowed
          let years := (18 - (st.child_age.getD 0)).toNat
          let monthly_saving := (amount : ℚ)
          let fv_low := future_value_annuity monthly_saving 0.06 years
          let fv_base := future_value_annuity monthly_saving 0.08 years
          let fv_high := future_value_annuity monthly_saving 0.10 years
          .ok ⟨{ st with monthly_saving := some monthly_saving,
                         current_step := "complete" },
            { rtype := "buttons",
              content := .templ "mdk_projection_custom"
                [((st.child_age.getD 0 : Int) : ℚ), (years : ℚ), monthly_saving,
                 fv_low, fv_base, fv_high],
              buttons := ["contact_agent", "no_contact"],
              next_step := some "complete" }, 1⟩
  else if st.current_step == "complete" then
    if m == "contact_agent" then
      .ok ⟨st, { rtype := "buttons", content := .templ "mdk_agent_soon" [],
                 buttons := ["main_menu"],
                 next_step := some "contact_confirmation" }, 0⟩
    else if m == "request_contact" then
      .ok ⟨st, { rtype := "buttons", content := .templ "mdk_agent_offer" [],
                 buttons := ["contact_agent", "no_contact"],
                 next_step := some "complete" }, 0⟩
    else if m == "no_contact" || m == "no" then
      .ok ⟨st, { rtype := "buttons", content := .templ "mdk_thanks_menu" [],
                 buttons := ["main_menu"],
                 next_step := some "end_options" }, 0⟩
    else if isAffirmative m || m == "restart" then
      .ok ⟨freshState,
        { content := .templ "mdk_welcome" [],
          buttons := ["yes", "no"], next_step := some "welcome" }, 0⟩
    else
      .ok ⟨st, { rtype := "buttons", content := .templ "mdk_agent_offer" [],
                 buttons := ["contact_agent", "no_contact"],
                 next_step := some "complete" }, 0⟩
  else if st.current_step == "end_options" && m == "main_menu" then
    -- lines 727-736: unreachable in practice (the main_menu guard above
    -- fires first), translated for completeness
    .ok ⟨freshState, { content := .templ "mdk_start_over" [],
                       next_step := some "get_name" }, 0⟩
  else
    .ok ⟨{ st with current_step := "welcome" },
      { content := .templ "mdk_lost" [], next_step := some "welcome" }, 0⟩

/-- Lines 200-759 (`process_message`): the `try` body plus the boundary
handler, which sets `current_step` to `welcome` and apologizes. -/
def process_message (sheetFails : Bool) (st : State) (msg : Msg)
    (user_data : PyDict) : StepOut State :=
  match processCore sheetFails st msg user_data with
  | .ok o => o
  | .error (st', _) => ⟨{ st' with current_step := "welcome" }, errorResp, 0⟩

end Mdk

/-! ### Campaign4/tabung_perubatan.py: Tabung Perubatan -/

namespace Perub

structure State where
  current_step : String := "welcome"
  user_data : PyDict := []
  age : Option Int := none
  coverage_level : Option Int := none
  name : Option String := none
deriving DecidableEq

def freshState : State := {}

/-- Lines 105-117 (`_get_welcome_response`): `type` is `"message"`. -/
def welcomeResp : Resp :=
  { rtype := "message", content := .templ "perub_welcome" [],
    buttons := ["yes", "no"], next_step := some "check_interest_response" }

def resetMainResp : Resp :=
  { rtype := "reset_to_main", content := .lit "Returning to main menu..." }

/-- Lines 558-564: the outer `except` response. -/
def errorResp : Resp :=
  { rtype := "message", content := .templ "perub_process_error" [],
    next_step := some "welcome" }

def coverageButtons : List String := ["1", "2", "3"]

def endConversationResp : Resp :=
  { rtype := "buttons", content := .templ "perub_end" [],
    buttons := ["main_menu"], next_step := some "end_conversation" }

/-- Lines 152-554: the body of the `try` in `process_message`.  `fuel`
bounds the self-recursive `process_message(user_id, "start", ws)` call in
the unknown-state branch (line 538).  Raises reaching the boundary:
`message.strip()` on a dict (line 199, `AttributeError`) and the
`self._get_estimation_question()` call at line 316, which omits the
required `state` argument (`TypeError`). -/
def processCore (sheetFails : Bool) :
    Nat → State → Msg → PyDict → PyRes State
  | fuel, st0, msg, user_data =>
    let st := if !user_data.isEmpty then
        let st := { st0 with user_data := dupdate st0.user_data user_data }
        let st := if dTruthy user_data "age" then
            match pyIntOfVal (dgetD user_data "age" .pynone) with
            | some a => { st with age := some a }
            | none => st
          else st
        if dTruthy user_data "name" then
          { st with name := some (dgetD user_data "name" .pynone).pyStr }
        else st
      else st0
    match (if msg.truthy then msgStrip msg else .ok "") with
    | .error e => .error (st, e)
    | .ok stripped =>
    let m := stripped.toLower
    if m == "restart" || m == "main_menu" then
      .ok ⟨st, resetMainResp, 0⟩
    else if st.current_step == "welcome" || st.current_step == "" then
      .ok ⟨{ st with current_step := "check_interest_response" }, welcomeResp, 0⟩
    else if st.current_step == "check_interest_response" then
      if m == "yes" || ["yes", "y", "ya", "yeah", "sure", "ok"].any
          (fun w => strIn w m) then
        .ok ⟨{ st with current_step := "handle_estimation_response" },
          { rtype := "buttons", content := .templ "perub_explain_estimate" [],
            buttons := ["yes_estimate", "no"],
            next_step := some "handle_estimation_response" }, 0⟩
      else if m == "estimate" then
        .ok ⟨{ st with current_step := "get_coverage_level" },
          { rtype := "buttons", content := .templ "perub_ask_coverage" [],
            buttons := coverageButtons,
            next_step := some "get_coverage_level" }, 0⟩
      else if m == "no" || ["no", "n", "not now", "later"].any
          (fun w => strIn w m) then
        .ok ⟨{ st with current_step := "end_conversation" }, endConversationResp, 0⟩
      else
        .ok ⟨st, welcomeResp, 0⟩
    else if st.current_step == "ask_estimation" then
      .ok ⟨{ st with current_step := "welcome" }, welcomeResp, 0⟩
    else if st.current_step == "handle_estimation_response" then
      if m == "yes_estimate" || m == "estimate"
          || ["yes", "y", "ya", "sure", "ok"].any (fun w => strIn w m.toLower) then
        .ok ⟨{ st with current_step := "get_coverage_level" },
          { rtype := "buttons", content := .templ "perub_ask_coverage" [],
            buttons := coverageButtons,
            next_step := some "get_coverage_level" }, 0⟩
      else if m == "no" || ["no", "n", "not now", "later"].any
          (fun w => strIn w m) then
        .ok ⟨{ st with current_step := "end_conversation" }, endConversationResp, 0⟩
      else
        .error (st, "TypeError")
    else if st.current_step == "get_coverage_level" then
      let coverage_level? : Option Int :=
        if !m.isEmpty && m.toList.all Char.isDigit then some ((natFromDigits m.toList : Int))
        else if ["basic", "100k"].any (fun w => strIn w m.toLower) then some 1
        else if ["medium", "500k"].any (fun w => strIn w m.toLower) then some 2
        else if ["comprehensive", "1m", "1m+"].any (fun w => strIn w m.toLower) then some 3
        else none
      match coverage_level? with
      | some lvl =>
        if lvl != 1 && lvl != 2 && lvl != 3 then
          .ok ⟨st, { rtype := "buttons",
                     content := .templ "perub_coverage_invalid" [],
                     buttons := coverageButtons,
                     next_step := some "get_coverage_level" }, 0⟩
        else
          let st := { st with coverage_level := some lvl }
          let pe := estimate_medical_premium st.age lvl
          if pe.2 != "" then
            .ok ⟨st, { content := .templ "perub_premium_error" [],
                       next_step := some "get_coverage_level" }, 0⟩
          else
            -- one sheet append attempted (lines 347-373), failures swallowed
            .ok ⟨{ st with current_step := "offer_agent_contact" },
              { rtype := "buttons",
                content := .templ "perub_premium"
                  [((st.age.getD 0 : Int) : ℚ), (lvl : ℚ), pe.1],
                buttons := ["contact_agent", "no_contact"],
                next_step := some "offer_agent_contact" }, 1⟩
      | none =>
        .ok ⟨st, { rtype := "buttons",
                   content := .templ "perub_coverage_invalid" [],
                   buttons := coverageButtons,
                   next_step := some "get_coverage_level" }, 0⟩
    else if st.current_step == "offer_agent_contact" then
      let message_lower := m.toLower.trim
      if message_lower == "contact_agent" then
        .ok ⟨{ st with current_step := "contact_confirmed" },
          { rtype := "buttons", content := .templ "perub_agent_soon" [],
            buttons := ["main_menu"],
            next_step := some "contact_confirmed" }, 0⟩
      else if message_lower == "no_contact" then
        .ok ⟨{ st with current_step := "end_options" },
          { rtype := "buttons", content := .templ "perub_thanks" [],
            buttons := ["main_menu"], next_step := some "end_options" }, 0⟩
      else if message_lower == "other_plans" then
        .ok ⟨{ st with current_step := "show_plans" },
          { rtype := "buttons", content := .templ "perub_other_plans" [],
            buttons := ["tabung_warisan", "masa_depan_anak_kita", "satu_gaji",
              "main_menu"],
            next_step := some "show_plans" }, 0⟩
      else if message_lower == "main_menu" then
        -- `del self.states[user_id]`: the next lookup recreates a fresh state
        .ok ⟨freshState, resetMainResp, 0⟩
      else if message_lower == "restart" then
        .ok ⟨st, resetMainResp, 0⟩
      else
        -- no matching branch: fall through to the response post-processing
        -- (lines 540-554) with the default-initialized response, which
        -- resets the step to welcome and returns an empty message
        .ok ⟨{ st with current_step := "welcome" },
          { content := .lit "", next_step := some "welcome" }, 0⟩
    else if st.current_step == "get_contact_info" then
      let name := (stripDigits m).trim
      if name.isEmpty then
        .ok ⟨st, { content := .templ "perub_name_invalid" [],
                   next_step := some "get_contact_info" }, 0⟩
      else
        .ok ⟨{ st with name := some name, current_step := "end_conversation" },
          { content := .templ "perub_name_thanks" [],
            next_step := some "end_conversation" }, 0⟩
    else if st.current_step == "end_conversation" then
      .ok ⟨st, { content := .templ "perub_end_thanks" [],
                 next_step := some "end_conversation" }, 0⟩
    else
      -- unknown state (lines 534-554): restart via a recursive
      -- `process_message(user_id, "start", ws)` (no user_data kwarg),
      -- then apply the response post-processing, which overwrites
      -- `next_step` with `welcome` (the recursive result carries no
      -- truthy `response` key)
      match fuel with
      | 0 => .error (st, "RecursionError")
      | fuel' + 1 =>
        let inner := match processCore sheetFails fuel'
            { st with current_step := "welcome" } (.str "start") [] with
          | .ok o => o
          | .error (st', _) => ⟨st', errorResp, 0⟩
        .ok ⟨{ inner.state with current_step := "welcome" },
          { inner.resp with next_step := some "welcome" }, inner.rows⟩

/-- Lines 134-564 (`process_message`): the `try` body with the boundary
handler of lines 556-564. -/
def process_message (sheetFails : Bool) (fuel : Nat) (st : State) (msg : Msg)
    (user_data : PyDict) : StepOut State :=
  match processCore sheetFails fuel st msg user_data with
  | .ok o => o
  | .error (st', _) => ⟨st', errorResp, 0⟩

end Perub

/-! ### Campaign5/perlindungan_combo.py: Perlindungan Combo -/

namespace Combo

structure State where
  current_step : String := "welcome"
  user_data : PyDict := []
  age : Option Int := none
  package_tier : Option Int := none
deriving DecidableEq

def freshState : State := {}

def packageName (tier : Int) : String :=
  if tier = 1 then "Silver - Essential Protection"
  else if tier = 2 then "Gold - Balanced Protection"
  else if tier = 3 then "Platinum - Comprehensive Protection"
  else "Package"

def welcomeButtons : List String := ["learn_more", "not_now"]
def packageButtons : List String := ["1", "2", "3"]
def agentButtons : List String := ["yes", "no"]
def navButtons : List String := ["main_menu"]
def benefitButtons : List String := ["show_estimate", "not_now"]

/-- Lines 1021-1029: the outer `except` response. -/
def errorResp : Resp :=
  { rtype := "message", content := .templ "combo_process_error" [],
    next_step := some "welcome" }

/-- `state.age if state.age else ...`: `Some 0` is falsy in Python. -/
def stateAgeTruthy : Option Int → Option Int
  | some a => if a != 0 then some a else none
  | none => none

/-- Lines 1031-1076 (`show_premium_estimate`): reads `age` and
`package_tier` from `user_data`.  A non-int `age` makes the comparison
inside `calculate_combo_tier` raise; its own `except` turns that into an
error message, which `_get_plan_estimate_message` re-raises as
`ValueError`, caught by `show_premium_estimate`'s `except`. -/
def showPremiumEstimate (st : State) : StepOut State :=
  let age := dgetD st.user_data "age" .pynone
  let pkg := dgetD st.user_data "package_tier" .pynone
  if !age.truthy || !pkg.truthy then
    ⟨st, { content := .templ "combo_missing_info" [],
           next_step := some "welcome" }, 0⟩
  else
    match age, pkg with
    | .int a, .int p =>
      match calculate_combo_tier a p with
      | (some annual, some monthly, _) =>
        let st := { st with
          user_data := dupdate st.user_data
            [("annual_premium", .float annual), ("monthly_premium", .float monthly),
             ("package_name", .str (packageName p))]
          current_step := "offer_agent_contact" }
        ⟨st, { rtype := "buttons",
               content := .templ "combo_estimate_confirm"
                 [(a : ℚ), (p : ℚ), annual, monthly],
               buttons := agentButtons,
               next_step := some "follow_up_contact" }, 0⟩
      | _ =>
        ⟨st, { content := .templ "combo_error_retry" [],
               next_step := some "show_estimate" }, 0⟩
    | _, _ =>
      ⟨st, { content := .templ "combo_error_retry" [],
             next_step := some "show_estimate" }, 0⟩

/-- The shared `show_estimate` branch bodies at lines 482-507 / 552-577:
take the age from `user_data` when present, valid and in 18-60, else ask
for it manually. -/
def showEstimateBranch (st : State) : StepOut State :=
  let ageOk : Option Int :=
    if dTruthy st.user_data "age" then
      match pyIntOfVal (dgetD st.user_data "age" .pynone) with
      | some a => if 18 ≤ a && a ≤ 60 then some a else none
      | none => none
    else none
  match ageOk with
  | some a =>
    ⟨{ st with age := some a, current_step := "get_package" },
      { rtype := "buttons", content := .templ "combo_age_seen_pick" [(a : ℚ)],
        buttons := packageButtons, next_step := some "get_package" }, 0⟩
  | none =>
    -- a successfully parsed but out-of-range age is still stored in
    -- `state.age` before the code falls through to the manual prompt
    let st :=
      if dTruthy st.user_data "age" then
        match pyIntOfVal (dgetD st.user_data "age" .pynone) with
        | some a => { st with age := some a }
        | none => st
      else st
    ⟨{ st with current_step := "get_age_manually" },
      { content := .templ "combo_ask_age_manual" [],
        next_step := some "get_age_manually" }, 0⟩

/-- Lines 388-407 (before the try) and 410-415 (inside it): state fetch
and `user_data` merge; the inner `int()` failures are caught and skipped. -/
def mergeUserData (st0 : State) (user_data : PyDict) : State :=
  if !user_data.isEmpty then
    let st := { st0 with user_data := dupdate st0.user_data user_data }
    if dTruthy user_data "age" then
      match pyIntOfVal (dgetD user_data "age" .pynone) with
      | some a => { st with age := some a }
      | none => st
    else st
  else st0

/-- Lines 368-1029 (`process_message` body).  Every branch of the big
dispatch either returns or falls through to the next `if`, mirrored here
by the else-if chain; `otherConvAges` models the ages found in
`active_conversations` for the legacy lookup at lines 956-971. -/
def processCore (sheetFails : Bool) (otherConvAges : List PyVal)
    (st0 : State) (msg : Msg) (user_data : PyDict) : PyRes State :=
  let st := mergeUserData st0 user_data
  let message_content := match msg with
    | .dict d => d.text?.getD ""
    | .str s => s
  let isStr := match msg with | .str _ => true | .dict _ => false
  let lower := message_content.toLower
  -- lines 426-460: the welcome branch
  if st.current_step == "welcome" || (isStr && lower == "start") then
    if dhas st.user_data "next_step"
        && (dgetD st.user_data "next_step" .pynone == .str "get_name") then
      let name := message_content.trim
      let ud := dset "name" (.str name) st.user_data
      let ud := dset "next_step" (.str "get_dob") ud
      .ok ⟨{ st with user_data := ud, current_step := "get_dob" },
        { content := .templ "combo_hi_ask_dob" [],
          next_step := some "get_dob" }, 0⟩
    else if st.current_step == "welcome" && !(dTruthy st.user_data "name") then
      .ok ⟨{ st with user_data := dset "next_step" (.str "get_name") st.user_data },
        { content := .templ "combo_ask_name" [],
          next_step := some "get_name" }, 0⟩
    else
      .ok ⟨{ st with current_step := "after_welcome" },
        { rtype := "buttons", content := .templ "combo_welcome" [],
          buttons := welcomeButtons, next_step := some "after_welcome" }, 0⟩
  -- lines 463-475: main_menu navigation
  else if isStr && lower == "main_menu" then
    .ok ⟨{ freshState with current_step := "get_name" },
      { rtype := "reset_to_main", content := .templ "combo_reset_main" [],
        next_step := some "get_name" }, 0⟩
  -- lines 479-529
  else if st.current_step == "show_benefits_response" then
    let normalized := if isStr then lower else ""
    if normalized == "show_estimate" then .ok (showEstimateBranch st)
    else if normalized == "not_now" then
      .ok ⟨{ st with current_step := "end_conversation" },
        { rtype := "buttons", content := .templ "combo_understood" [],
          buttons := navButtons, next_step := some "end_conversation" }, 0⟩
    else
      .ok ⟨st, { rtype := "buttons", content := .templ "combo_benefits" [],
                 buttons := benefitButtons,
                 next_step := some "show_benefits_response" }, 0⟩
  -- lines 532-610
  else if st.current_step == "after_welcome"
      || st.current_step == "welcome_response" then
    let normalized := if isStr then lower else ""
    if normalized == "show_benefits" || normalized == "learn_more" then
      .ok ⟨{ st with current_step := "show_benefits_response" },
        { rtype := "buttons", content := .templ "combo_benefits" [],
          buttons := benefitButtons,
          next_step := some "show_benefits_response" }, 0⟩
    else if normalized == "show_estimate" then .ok (showEstimateBranch st)
    else if normalized == "not_now"
        || ["no", "n", "not now", "later"].any (fun w => strIn w normalized) then
      .ok ⟨{ st with current_step := "end_conversation" },
        { rtype := "buttons", content := .templ "combo_understood" [],
          buttons := navButtons, next_step := some "end_conversation" }, 0⟩
    else if normalized == "get_estimate"
        || ["estimate", "calculate", "premium"].any (fun w => strIn w normalized) then
      .ok ⟨{ st with
             current_step := "get_age"
             user_data := dset "next_step_after_age" (.str "select_package")
               st.user_data },
        { content := .templ "combo_ask_age" [],
          next_step := some "get_age" }, 0⟩
    else
      .ok ⟨st, { rtype := "buttons", content := .templ "combo_not_sure" [],
                 buttons := welcomeButtons,
                 next_step := some "after_welcome" }, 0⟩
  -- lines 613-627; on no match it falls through
  else if st.current_step == "after_explanation" && lower == "get_estimate" then
    .ok ⟨{ st with current_step := "get_age" },
      { content := .templ "combo_ask_age" [], next_step := some "get_age" }, 0⟩
  else if st.current_step == "after_explanation"
      && (!message_content.isEmpty && message_content.toList.all Char.isDigit)
      && [1, 2, 3].contains ((natFromDigits message_content.toList : Int)) then
    let package_choice := (natFromDigits message_content.toList : Int)
    let st := { st with
      user_data := dset "package_tier" (.int package_choice) st.user_data
      current_step := "confirm_package" }
    .ok (showPremiumEstimate st)
  -- lines 630-675
  else if st.current_step == "get_age_manually" then
    if !message_content.isEmpty && message_content.toList.all Char.isDigit then
      let age := (natFromDigits message_content.toList : Int)
      if 18 ≤ age && age ≤ 60 then
        .ok ⟨{ st with age := some age, current_step := "get_package" },
          { rtype := "buttons", content := .templ "combo_age_seen_pick" [(age : ℚ)],
            buttons := packageButtons, next_step := some "get_package" }, 0⟩
      else
        .ok ⟨st, { content := .templ "combo_age_range" [],
                   next_step := some "get_age_manually" }, 0⟩
    else
      .ok ⟨st, { content := .templ "combo_age_number" [],
                 next_step := some "get_age_manually" }, 0⟩
  -- lines 678-733: reachable only for the literal message "get_name"
  -- (welcome and "start" were handled above)
  else if isStr && (lower == "start" || lower == "get_name") then
    if dhas st.user_data "next_step"
        && (dgetD st.user_data "next_step" .pynone == .str "get_name") then
      let ud := dset "name" (.str message_content.trim) st.user_data
      let ud := dset "next_step" (.str "get_dob") ud
      .ok ⟨{ st with user_data := ud, current_step := "get_dob" },
        { content := .templ "combo_hi_ask_dob" [],
          next_step := some "get_dob" }, 0⟩
    else if dhas st.user_data "next_step"
        && (dgetD st.user_data "next_step" .pynone == .str "get_dob") then
      let ud := dset "dob" (.str message_content.trim) st.user_data
      let ud := dset "next_step" (.str "get_email") ud
      .ok ⟨{ st with user_data := ud, current_step := "get_email" },
        { content := .templ "combo_ask_email" [],
          next_step := some "get_email" }, 0⟩
    else if dhas st.user_data "next_step"
        && (dgetD st.user_data "next_step" .pynone == .str "get_email") then
      let ud := dset "email" (.str message_content.trim) st.user_data
      let ud := dset "next_step" (.str "get_age") ud
      .ok ⟨{ st with user_data := ud, current_step := "get_age" },
        { content := .templ "combo_ask_how_old" [],
          next_step := some "get_age" }, 0⟩
    else if dhas st.user_data "next_step"
        && (dgetD st.user_data "next_step" .pynone == .str "get_age") then
      let ud := dset "age" (.str message_content.trim) st.user_data
      .ok ⟨{ st with user_data := ud, current_step := "after_name" },
        { content := .templ "combo_thanks_continue" [],
          next_step := some "after_name" }, 0⟩
    else
      -- line 733: `return {}` (an empty dict; the orchestrator skips it)
      .ok ⟨st, { rtype := "", content := .lit "" }, 0⟩
  -- lines 797-816; on no match it falls through
  else if st.current_step == "confirm_package"
      && ["yes", "y", "no", "no thanks", "n", "not now"].contains
        (message_content.trim.toLower) then
    .ok ⟨{ st with current_step := "follow_up_contact" },
      { rtype := "buttons", content := .templ "combo_agent_offer" [],
        buttons := agentButtons, next_step := some "follow_up_contact" }, 0⟩
  -- lines 819-853
  else if st.current_step == "follow_up_contact" then
    let ml := message_content.trim.toLower
    if ml == "yes" || ml == "y" then
      .ok ⟨st, { rtype := "buttons", content := .templ "combo_agent_soon" [],
                 buttons := navButtons, next_step := some "end_conversation" }, 0⟩
    else if ["no", "no thanks", "n", "not now"].contains ml then
      .ok ⟨st, { rtype := "buttons", content := .templ "combo_no_problem" [],
                 buttons := navButtons, next_step := some "get_name" }, 0⟩
    else
      .ok ⟨st, { rtype := "buttons", content := .templ "combo_anything_else" [],
                 buttons := navButtons, next_step := some "end_conversation" }, 0⟩
  -- lines 856-897
  else if st.current_step == "show_estimate" then
    if !(dTruthy st.user_data "package_choice") then
      .ok ⟨{ st with current_step := "get_package" },
        { rtype := "buttons", content := .templ "combo_pick_package" [],
          buttons := packageButtons, next_step := some "get_package" }, 0⟩
    else
      -- `_get_plan_estimate_message(age, package_choice)` with the dynamic
      -- values from user_data; any failure is caught (lines 889-897)
      match dgetD st.user_data "age" (.int 30),
          dgetD st.user_data "package_choice" .pynone with
      | .int a, .int p =>
        match calculate_combo_tier a p with
        | (some annual, some monthly, _) =>
          let st := { st with
            user_data := dupdate st.user_data
              [("package_name", .str (packageName p)),
               ("annual_premium", .float annual),
               ("monthly_premium", .float monthly)]
            current_step := "confirm_package" }
          .ok ⟨st, { rtype := "buttons",
                     content := .templ "combo_estimate_confirm"
                       [(a : ℚ), (p : ℚ), annual, monthly],
                     buttons := ["yes", "no"],
                     next_step := some "confirm_package" }, 0⟩
        | _ =>
          .ok ⟨st, { content := .templ "combo_error_retry" [],
                     next_step := some "show_estimate" }, 0⟩
      | _, _ =>
        .ok ⟨st, { content := .templ "combo_error_retry" [],
                   next_step := some "show_estimate" }, 0⟩
  -- lines 900-935
  else if st.current_step == "follow_up_quote" then
    if ["yes", "y", "ya", "yeah", "contact"].any
        (fun w => strIn w message_content.toLower) then
      .ok ⟨freshState, { content := .templ "combo_quote_contact" [],
                         next_step := some "end_conversation" }, 0⟩
    else
      .ok ⟨st, { content := .templ "combo_quote_reask" [],
                 next_step := some "follow_up_quote" }, 0⟩
  -- lines 938-980 (`elif` on `get_age`); without a truthy age in the
  -- user_data argument the whole branch is skipped
  else if st.current_step == "get_age" && dTruthy user_data "age" then
    match pyIntOfVal (dgetD user_data "age" .pynone) with
    | some a =>
      if 0 ≤ a && a ≤ 120 then
        .ok ⟨{ st with
               user_data := dset "age" (.int a) st.user_data
               current_step := "get_package" },
          { rtype := "buttons", content := .templ "combo_age_thanks_pick" [(a : ℚ)],
            buttons := packageButtons, next_step := some "get_package" }, 0⟩
      else
        comboLegacyAgeLookup st otherConvAges
    | none => comboLegacyAgeLookup st otherConvAges
  -- lines 982-1006
  else if st.current_step == "get_package"
      && (!message_content.isEmpty && message_content.toList.all Char.isDigit)
      && [1, 2, 3].contains ((natFromDigits message_content.toList : Int)) then
    let package_choice := (natFromDigits message_content.toList : Int)
    let st := { st with
      user_data := dset "package_tier" (.int package_choice) st.user_data }
    let ageRes : Except (State × String) Int :=
      match stateAgeTruthy st.age with
      | some a => .ok a
      | none =>
        match pyIntOfVal (dgetD st.user_data "age" (.int 30)) with
        | some a => .ok a
        | none => .error (st, "ValueError")
    match ageRes with
    | .error e => .error e
    | .ok age =>
      match calculate_combo_tier age package_choice with
      | (some annual, some monthly, _) =>
        let package_name := packageName package_choice
        let st := { st with
          user_data := dupdate st.user_data
            [("package_choice", .int package_choice),
             ("package_name", .str package_name),
             ("annual_premium", .float annual),
             ("monthly_premium", .float monthly)]
          current_step := "follow_up_contact" }
        .ok ⟨st, { rtype := "buttons",
                   content := .templ "combo_plan_premium"
                     [(package_choice : ℚ), annual, monthly],
                   buttons := agentButtons,
                   next_step := some "follow_up_contact" }, 0⟩
      | _ =>
        -- the error from `calculate_combo_tier` is ignored here (line 987)
        -- and `float(None)` in the message f-string raises `TypeError`
        .error (st, "TypeError")
  -- lines 1007-1020: fallback
  else
    .ok ⟨st, { content := .templ "combo_fallback" [],
               next_step := some "welcome" }, 0⟩
where
  -- Lines 955-980: the legacy scan over other conversations' ages; an
  -- `int()` failure aborts the scan, an out-of-range age moves on.
  comboLegacyAgeLookup (st : State) : List PyVal → PyRes State
    | [] =>
      .ok ⟨st, { content := .templ "combo_ask_age_range" [],
                 next_step := some "get_age" }, 0⟩
    | v :: rest =>
      match pyIntOfVal v with
      | some a =>
        if 0 ≤ a && a ≤ 120 then
          .ok ⟨{ st with
                 user_data := dset "age" (.int a) st.user_data
                 current_step := "get_package" },
            { rtype := "buttons",
              content := .templ "combo_age_thanks_pick" [(a : ℚ)],
              buttons := packageButtons, next_step := some "get_package" }, 0⟩
        else comboLegacyAgeLookup st rest
      | none =>
        .ok ⟨st, { content := .templ "combo_ask_age_range" [],
                   next_step := some "get_age" }, 0⟩

/-- Lines 368-1029 (`process_message`): the `try` body with the boundary
handler of lines 1021-1029. -/
def process_message (sheetFails : Bool) (otherConvAges : List PyVal)
    (st : State) (msg : Msg) (user_data : PyDict) : StepOut State :=
  match processCore sheetFails otherConvAges st msg user_data with
  | .ok o => o
  | .error (st', _) => ⟨st', errorResp, 0⟩

end Combo

/-! ## Theorems -/

/-! ### Helper lemmas -/

theorem floor_le_pyRoundInt (q : ℚ) : ⌊q⌋ ≤ pyRoundInt q := by
  unfold pyRoundInt
  split_ifs <;> omega

theorem le_round2_of_le {n : ℤ} {q : ℚ} (h : (n : ℚ) ≤ q) : (n : ℚ) ≤ round2 q := by
  have h1 : ((n * 100 : ℤ) : ℚ) ≤ q * 100 := by push_cast; linarith
  have h2 : (n * 100 : ℤ) ≤ ⌊q * 100⌋ := Int.le_floor.mpr h1
  have h3 : (n * 100 : ℤ) ≤ pyRoundInt (q * 100) :=
    le_trans h2 (floor_le_pyRoundInt _)
  have h4 : ((n * 100 : ℤ) : ℚ) ≤ ((pyRoundInt (q * 100) : ℤ) : ℚ) := by
    exact_mod_cast h3
  unfold round2
  rw [le_div_iff (by norm_num : (0:ℚ) < 100)]
  push_cast at h4 ⊢
  linarith

theorem fv_scale_ne {m r : ℚ} (hm : 100 ≤ m) (hr : 0 < r) {y : ℕ} (hy : y ≠ 0) :
    future_value_annuity (m * 12) r y ≠ future_value_annuity m r y := by
  unfold future_value_annuity
  intro h
  have hpow : 1 < (1 + r) ^ y := one_lt_pow (by linarith) hy
  have hf : 0 < ((1 + r) ^ y - 1) / r := div_pos (by linarith) hr
  have hm0 : 0 < m := by linarith
  nlinarith [mul_pos hm0 hf]

theorem combo_merge_current_step (st : Combo.State) (ud : PyDict) :
    (Combo.mergeUserData st ud).current_step = st.current_step := by
  unfold Combo.mergeUserData
  split_ifs <;> first
    | rfl
    | (cases pyIntOfVal (dgetD ud "age" .pynone) <;> rfl)

theorem dget_append_key (k : String) (v : PyVal) :
    ∀ d : PyDict, d.any (fun kv => kv.1 == k) = false →
      dget (d ++ [(k, v)]) k = some v := by
  intro d
  induction d with
  | nil =>
    intro _
    show (List.find? (fun kv => kv.1 == k) [(k, v)]).map (fun x => x.2) = some v
    rw [List.find?_cons_of_pos (p := fun kv : String × PyVal => kv.1 == k) _
      (by simp)]
    rfl
  | cons hd tl ih =>
    intro h
    rw [List.any_cons, Bool.or_eq_false_iff] at h
    have hp : ¬((fun kv : String × PyVal => kv.1 == k) hd = true) := by
      simp [h.1]
    show (List.find? (fun kv => kv.1 == k) (hd :: (tl ++ [(k, v)]))).map
        (fun x => x.2) = some v
    rw [List.find?_cons_of_neg (p := fun kv : String × PyVal => kv.1 == k) _ hp]
    exact ih h.2

theorem dget_map_key (k : String) (v : PyVal) :
    ∀ d : PyDict, d.any (fun kv => kv.1 == k) = true →
      dget (d.map (fun kv => if kv.1 == k then (k, v) else kv)) k = some v := by
  intro d
  induction d with
  | nil => intro h; simp at h
  | cons hd tl ih =>
    intro h
    by_cases hh : (hd.1 == k) = true
    · show (List.find? (fun kv => kv.1 == k)
          ((if (hd.1 == k) = true then (k, v) else hd) ::
            tl.map (fun kv => if kv.1 == k then (k, v) else kv))).map
          (fun x => x.2) = some v
      rw [if_pos hh,
        List.find?_cons_of_pos (p := fun kv : String × PyVal => kv.1 == k) _
          (by simp)]
      rfl
    · have hf : (hd.1 == k) = false := by simpa using hh
      have h2 : tl.any (fun kv => kv.1 == k) = true := by
        rw [List.any_cons, hf, Bool.false_or] at h
        exact h
      have hp : ¬((fun kv : String × PyVal => kv.1 == k) hd = true) := hh
      show (List.find? (fun kv => kv.1 == k)
          ((if (hd.1 == k) = true then (k, v) else hd) ::
            tl.map (fun kv => if kv.1 == k then (k, v) else kv))).map
          (fun x => x.2) = some v
      rw [if_neg hh,
        List.find?_cons_of_neg (p := fun kv : String × PyVal => kv.1 == k) _ hp]
      exact ih h2

theorem dget_dset_self (k : String) (v : PyVal) (d : PyDict) :
    dget (dset k v d) k = some v := by
  unfold dset
  by_cases h : d.any (fun kv => kv.1 == k) = true
  · rw [if_pos h]; exact dget_map_key k v d h
  · rw [if_neg h]
    simp only [Bool.not_eq_true] at h
    exact dget_append_key k v d h

theorem mem_cacheSet_or (k : String) (t : ℚ) (s : String) (u : ℚ)
    (c : MsgCache) (h : (k, t) ∈ c) :
    (k, t) ∈ cacheSet s u c ∨ (k, u) ∈ cacheSet s u c := by
  unfold cacheSet
  by_cases hc : c.any (fun kv => kv.1 == s) = true
  · rw [if_pos hc]
    have hm := List.mem_map_of_mem
      (fun kv : String × ℚ => if kv.1 == s then (s, u) else kv) h
    by_cases hk : (k == s) = true
    · right
      have : k = s := by simpa using hk
      subst this
      simpa using hm
    · left
      simpa [hk] using hm
  · rw [if_neg hc]
    exact Or.inl (List.mem_append_left _ h)

theorem mem_cacheCleanup (now : ℚ) (k : String) (t : ℚ) (c : MsgCache)
    (h : (k, t) ∈ c) (hw : now - t < 60) : (k, t) ∈ cacheCleanup now c := by
  unfold cacheCleanup MESSAGE_CACHE_TTL
  exact List.mem_filter.mpr ⟨h, by simpa using hw⟩

theorem cacheHas_of_mem (k : String) (t : ℚ) (c : MsgCache)
    (h : (k, t) ∈ c) : cacheHas c k = true := by
  unfold cacheHas
  exact List.any_eq_true.mpr ⟨(k, t), h, by simp⟩

/-! ### Claim C1 -/

/-- Claim C1, counterexample: in the combo campaign the welcome-state
branch (perlindungan_combo.py line 426) is tested before the `main_menu`
navigation check (line 463), so a fresh combo session that receives the
plain-text message `main_menu` answers with an ordinary `message`
response (the ask-name prompt), not a `reset_to_main` control response.
The claim that *every* campaign handler returns a return-to-main-menu
control response for `main_menu` in every prior state is therefore false
on the code. -/
theorem claim_C1_counterexample :
    (Combo.process_message false [] Combo.freshState
        (.str "main_menu") []).resp.rtype = "message" ∧
    (Combo.process_message false [] Combo.freshState
        (.str "main_menu") []).resp.rtype ≠ "reset_to_main" :=
  ⟨by with_unfolding_all rfl, by with_unfolding_all decide⟩

/-- Claim C1, amended: for the plain-text message `main_menu`, the sgsa,
warisan, education-savings and medical campaigns return a
`reset_to_main` control response from every prior state and session
`user_data`; the combo campaign does so only when its current step is
not `welcome` (in the welcome state the onboarding branch intercepts the
message).  Finally, whenever a campaign result with a nonempty text is a
`reset_to_main` response, the orchestrator clears `active_campaign`,
clears the collected `user_data` and resets the onboarding step to
`get_name`. -/
theorem claim_C1_amended :
    (∀ today sf fuel st ud,
      Sgsa.process_message today sf fuel st (.str "main_menu") ud
        = ⟨Sgsa.freshState, Sgsa.resetResp, 0⟩) ∧
    (∀ sf st ud,
      (Warisan.process_message sf st (.str "main_menu") ud).resp
        = Warisan.resetMainResp) ∧
    (∀ sf st ud,
      (Mdk.process_message sf st (.str "main_menu") ud).resp
        = Mdk.resetMainResp) ∧
    (∀ sf fuel st ud,
      (Perub.process_message sf fuel st (.str "main_menu") ud).resp
        = Perub.resetMainResp) ∧
    (∀ sf ages st ud, st.current_step ≠ "welcome" →
      (Combo.process_message sf ages st (.str "main_menu") ud).resp.rtype
        = "reset_to_main") ∧
    (∀ (c : ConvState) (r : Resp), r.rtype = "reset_to_main" →
      r.content.isEmptyText = false →
      orchHandleResult c r
        = ({ step := "get_name", user_data := [], active_campaign := none },
           true)) := by
  refine ⟨?_, ?_, ?_, ?_, ?_, ?_⟩
  · intro today sf fuel st ud
    with_unfolding_all rfl
  · intro sf st ud
    with_unfolding_all rfl
  · intro sf st ud
    with_unfolding_all rfl
  · intro sf fuel st ud
    cases fuel <;> with_unfolding_all rfl
  · intro sf ages st ud h
    have hc : ((Combo.mergeUserData st ud).current_step == "welcome") = false := by
      simp [combo_merge_current_step, h]
    unfold Combo.process_message Combo.processCore
    simp only [hc]
    with_unfolding_all rfl
  · intro c r h1 h2
    simp [orchHandleResult, h1, h2]

/-- Concrete instantiation of the conditional parts of `claim_C1_amended`:
a combo session at the `get_package` step is reset by `main_menu`, and
the orchestrator clears an active session on the sgsa reset response. -/
theorem claim_C1_amended_witness :
    (Combo.process_message false [] { current_step := "get_package" }
        (.str "main_menu") []).resp.rtype = "reset_to_main" ∧
    orchHandleResult
        { step := "campaign_active", user_data := [("name", .str "Ali")],
          active_campaign := some "sgsa" } Sgsa.resetResp
      = ({ step := "get_name", user_data := [], active_campaign := none },
         true) :=
  ⟨claim_C1_amended.2.2.2.2.1 false [] { current_step := "get_package" } []
      (by with_unfolding_all decide),
   claim_C1_amended.2.2.2.2.2 _ Sgsa.resetResp rfl (by with_unfolding_all rfl)⟩

/-! ### Claim C2 -/

/-- Claim C2, counterexample: at income 1000 and age 25 the returned
annual premium is the bare minimum 100.00, but the returned monthly
premium is 8.33 — `round(100/12, 2)` — which is not the returned annual
premium divided by 12 exactly (8.33 × 12 = 99.96 ≠ 100).  The claim that
"the returned monthly premium equals the returned annual premium divided
by 12 exactly" is therefore false on the code. -/
theorem claim_C2_counterexample :
    (calculate_premium_estimation 1000 20 25).annual_premium = 100 ∧
    (calculate_premium_estimation 1000 20 25).monthly_premium = 833 / 100 ∧
    (calculate_premium_estimation 1000 20 25).monthly_premium ≠
      (calculate_premium_estimation 1000 20 25).annual_premium / 12 := by
  refine ⟨by with_unfolding_all decide, by with_unfolding_all decide,
    by with_unfolding_all decide⟩

/-- Claim C2, amended: for every age in [18, 70] and every positive
income, the income-protection calculator returns an annual premium equal
to `round2 (max ((i × 10) / 1000 × rate(a)) 100)` — the claimed formula
rounded to two decimals — which is always ≥ 100, and a monthly premium
equal to the *unrounded* annual premium divided by 12 and then rounded to
two decimals (not the returned annual premium divided by 12 exactly). -/
theorem claim_C2_amended (a : Int) (i : ℚ) (y : Int)
    (ha1 : 18 ≤ a) (ha2 : a ≤ 70) (hi : 0 < i) :
    (calculate_premium_estimation i y a).annual_premium
        = round2 (max (i * 10 / 1000 * sgsaRate a) 100) ∧
    100 ≤ (calculate_premium_estimation i y a).annual_premium ∧
    (calculate_premium_estimation i y a).monthly_premium
        = round2 (max (i * 10 / 1000 * sgsaRate a) 100 / 12) := by
  refine ⟨rfl, ?_, rfl⟩
  have h : (100 : ℚ) ≤ max (i * 10 / 1000 * sgsaRate a) 100 := le_max_right _ _
  have h2 := le_round2_of_le (n := 100) (by exact_mod_cast h)
  exact_mod_cast h2

/-- Concrete instantiation of `claim_C2_amended` at age 25, income 50000,
coverage 20 years. -/
theorem claim_C2_amended_witness :
    (calculate_premium_estimation 50000 20 25).annual_premium
        = round2 (max ((50000 : ℚ) * 10 / 1000 * sgsaRate 25) 100) ∧
    100 ≤ (calculate_premium_estimation 50000 20 25).annual_premium ∧
    (calculate_premium_estimation 50000 20 25).monthly_premium
        = round2 (max ((50000 : ℚ) * 10 / 1000 * sgsaRate 25) 100 / 12) :=
  claim_C2_amended 25 50000 20 (by decide) (by decide) (by norm_num)

/-! ### Claim C3 -/

/-- Claim C3, counterexample: for the profile with primary concern
`protection`, life stage `single`, no dependents and age 30, the
legacy-planning campaign is still offered, although the concern is not
`retirement` or `savings` and the age is below 40.  The `max(1, ...)`
clamp at main.py line 243 lifts every campaign priority to at least 1,
so the claimed filtering never removes any campaign. -/
theorem claim_C3_counterexample :
    "tabung_warisan" ∈ showCampaignIds "protection" "single" 0 30 false ∧
    "protection" ∉ ["retirement", "savings"] ∧ (30 : Int) < 40 := by
  with_unfolding_all decide

/-- Claim C3, amended: because of the `max(1, ...)` clamp at main.py line
243, `show_campaign_options` shows all five campaigns for every profile
(the priority rules of lines 203-234 have no effect), ordered by the
sort key `(-priority, title)`, which with all priorities equal to 1 is
the campaign display name ascending. -/
theorem claim_C3_amended (primary_concern life_stage : String)
    (dependents user_age : Int) :
    showCampaignIds primary_concern life_stage dependents user_age false
      = ["masa_depan_anak_kita", "perlindungan_combo", "sgsa",
         "tabung_perubatan", "tabung_warisan"] := by
  unfold showCampaignIds allCampaignEntries
  split_ifs <;> with_unfolding_all rfl

/-! ### Claim C4 -/

/-- Claim C4, confirmed: the education-savings projection uses two
different annuity conventions: the predefined-amount path
(`calculate_results`, line 943) passes `monthly × 12` to
`future_value_annuity`, while the custom-amount path (lines 573-576)
passes `monthly` itself; hence for every monthly amount ≥ 100, every
child age ≤ 17 (so `years = 18 − c ≥ 1`) and each projection rate, the
two paths produce different projected fund amounts.  The final conjunct
exhibits the disagreement at the dialog level: the same child age 5 and
monthly amount 300 produce different projection responses on the two
paths. -/
theorem claim_C4_two_conventions :
    (∀ (m : ℚ), 100 ≤ m → ∀ (c : ℕ), c ≤ 17 →
      ∀ r ∈ ([0.06, 0.08, 0.10] : List ℚ),
        future_value_annuity (m * 12) r (18 - c) ≠
          future_value_annuity m r (18 - c)) ∧
    (Mdk.process_message false
        { current_step := "get_monthly_saving", child_age := some 5 }
        (.str "300") []).resp ≠
      (Mdk.process_message false
        { current_step := "get_custom_saving", child_age := some 5 }
        (.str "300") []).resp := by
  constructor
  · intro m hm c hc r hr
    have hy : 18 - c ≠ 0 := by omega
    have hr' : (0 : ℚ) < r := by
      simp only [List.mem_cons, List.mem_singleton, List.not_mem_nil, or_false] at hr
      rcases hr with h | h | h <;> rw [h] <;> norm_num
    exact fv_scale_ne hm hr' hy
  · with_unfolding_all decide

/-- Concrete instantiation of the universally quantified part of
`claim_C4_two_conventions` at monthly 300, child age 5, rate 0.08. -/
theorem claim_C4_witness :
    future_value_annuity ((300 : ℚ) * 12) 0.08 (18 - 5) ≠
      future_value_annuity 300 0.08 (18 - 5) :=
  claim_C4_two_conventions.1 300 (by norm_num) 5 (by norm_num) 0.08 (by norm_num)

/-! ### Claim C5 -/

/-- Claim C5, counterexample: the warisan custom-amount path computes a
premium and moves to the agent-contact offer, but appends no row to the
sheet: the append code of tabung_warisan.py lines 590-613 lives only in
the inline predefined-amount branch, and the custom branch (lines
655-700) has no append.  A completed flow through `750000` as a custom
legacy amount therefore emits zero Lead Records, refuting "exactly one
row per completed flow". -/
theorem claim_C5_counterexample :
    (Warisan.process_message false
      { current_step := "get_custom_legacy_amount", user_age := 50 }
      (.str "750000") []).resp.next_step = some "offer_agent_contact" ∧
    (Warisan.process_message false
      { current_step := "get_custom_legacy_amount", user_age := 50 }
      (.str "750000") []).rows = 0 :=
  ⟨by with_unfolding_all rfl, by with_unfolding_all rfl⟩

/-- Claim C5, amended: append failures are indeed swallowed — the result
of the sgsa premium handler and of the warisan, education-savings and
combo `process_message` is independent of whether the sheet append
fails — and the sgsa premium handler appends exactly one row whenever it
produces a premium result (its success response is the only one whose
next step is `handle_agent_decision`).  In the warisan campaign, however,
only the predefined-amount path appends a row: the custom-amount path
reaches the same agent-contact offer with zero rows appended. -/
theorem claim_C5_amended :
    (∀ today st msg, Sgsa.handleCalculatePremium today true st msg
        = Sgsa.handleCalculatePremium today false st msg) ∧
    (∀ st msg ud, Warisan.process_message true st msg ud
        = Warisan.process_message false st msg ud) ∧
    (∀ st msg ud, Mdk.process_message true st msg ud
        = Mdk.process_message false st msg ud) ∧
    (∀ ages st msg ud, Combo.process_message true ages st msg ud
        = Combo.process_message false ages st msg ud) ∧
    (∀ today sf st msg,
      (Sgsa.handleCalculatePremium today sf st msg).resp.next_step
          = some "handle_agent_decision" →
      (Sgsa.handleCalculatePremium today sf st msg).rows = 1) ∧
    (Warisan.process_message false
      { current_step := "get_legacy_amount", user_age := 50 }
      (.str "600000") []).rows = 1 ∧
    (Warisan.process_message false
      { current_step := "get_custom_legacy_amount", user_age := 50 }
      (.str "800000") []).resp.next_step = some "offer_agent_contact" ∧
    (Warisan.process_message false
      { current_step := "get_custom_legacy_amount", user_age := 50 }
      (.str "800000") []).rows = 0 := by
  refine ⟨fun _ _ _ => rfl, fun _ _ _ => rfl, fun _ _ _ => rfl,
    fun _ _ _ _ => rfl, ?_, by with_unfolding_all rfl,
    by with_unfolding_all rfl, by with_unfolding_all rfl⟩
  intro today sf st msg h
  simp only [Sgsa.handleCalculatePremium] at h ⊢
  split_ifs at h ⊢
  · simp at h
  · split at h <;> simp_all

/-- Concrete instantiation of the conditional part of `claim_C5_amended`:
the sgsa premium handler appends one row for a session holding income,
age and coverage years. -/
theorem claim_C5_amended_witness :
    (Sgsa.handleCalculatePremium ⟨2025, 6, 1⟩ false
      { current_step := "calculate_premium",
        user_data := [("annual_income", .float 60000), ("age", .int 30),
          ("years_of_coverage", .int 20)] } (.str "20")).rows = 1 :=
  claim_C5_amended.2.2.2.2.1 ⟨2025, 6, 1⟩ false
    { current_step := "calculate_premium",
      user_data := [("annual_income", .float 60000), ("age", .int 30),
        ("years_of_coverage", .int 20)] } (.str "20")
    (by with_unfolding_all rfl)

/-! ### Claim C6 -/

/-- Claim C6, counterexample: the medical-coverage calculator
(`estimate_medical_premium`) performs no domain validation at all: for
the out-of-domain age −5 (and coverage level 1) it computes the figure 80
and returns an empty error string instead of an explicit validation
failure.  The claim that *every* premium calculator returns a validation
failure for out-of-domain ages is therefore false on the code. -/
theorem claim_C6_counterexample :
    estimate_medical_premium (some (-5)) 1 = (80, "") ∧ (-5 : Int) < 18 := by
  exact ⟨by with_unfolding_all decide, by decide⟩

/-- Claim C6, amended: only the combo calculator validates its age
domain: for every age outside 18-60 (and any package tier)
`calculate_combo_tier` returns no premium and a guidance message; the
medical estimator, by contrast, never returns a validation failure for an
integer age — it always computes a figure with an empty error string.
The income-protection and legacy calculators likewise compute for any
age; out-of-domain rejection happens in the dialog steps, not in the
calculators. -/
theorem claim_C6_amended :
    (∀ (age tier : Int), age < 18 ∨ 60 < age →
      (calculate_combo_tier age tier).1 = none ∧
      (calculate_combo_tier age tier).2.1 = none ∧
      (calculate_combo_tier age tier).2.2.isSome = true) ∧
    (∀ (age lvl : Int), (estimate_medical_premium (some age) lvl).2 = "") := by
  constructor
  · intro age tier h
    unfold calculate_combo_tier
    split_ifs <;> first | exact ⟨rfl, rfl, rfl⟩ | omega
  · intro age lvl
    rfl

/-- Concrete instantiation of `claim_C6_amended`: age 70 is rejected by
the combo calculator with a guidance message, while the medical estimator
still computes for age 70. -/
theorem claim_C6_amended_witness :
    ((calculate_combo_tier 70 2).1 = none ∧
      (calculate_combo_tier 70 2).2.1 = none ∧
      (calculate_combo_tier 70 2).2.2.isSome = true) ∧
    (estimate_medical_premium (some 70) 2).2 = "" :=
  ⟨claim_C6_amended.1 70 2 (by decide), claim_C6_amended.2 70 2⟩

/-! ### Claim C7 -/

/-- Claim C7, counterexample: at legacy amount 500000 and age 50 the
legacy calculator uses the band factor 55 (the `age ≤ 45` band does not
apply at 50), so the annual premium is 500 × 55 = 27500, not the claimed
500 × 40 = 20000. -/
theorem claim_C7_counterexample :
    calculate_warisan_premium_estimation 500000 50 = 27500 ∧
    calculate_warisan_premium_estimation 500000 50 ≠ 20000 := by
  exact ⟨by norm_num [calculate_warisan_premium_estimation],
    by norm_num [calculate_warisan_premium_estimation]⟩

/-- Claim C7, amended: for legacy amount 500000 and age 50 the calculator
returns an annual premium of 27500 (500 units × band factor 55, since 50
falls in the `else` band), and the monthly premium displayed by the
handler is 27500 / 12 = 2291.666…, rendered as 2291.67. -/
theorem claim_C7_amended :
    calculate_warisan_premium_estimation 500000 50 = 27500 ∧
    calculate_warisan_premium_estimation 500000 50 / 12 = 6875 / 3 ∧
    round2 (calculate_warisan_premium_estimation 500000 50 / 12) = 229167 / 100 := by
  refine ⟨by norm_num [calculate_warisan_premium_estimation],
    by norm_num [calculate_warisan_premium_estimation], ?_⟩
  norm_num [calculate_warisan_premium_estimation, round2, pyRoundInt]

/-! ### Claim C8 -/

/-- Claim C8, confirmed: at the `get_dob` onboarding step, for every
current date and every previously collected profile, entering
`15/06/1990` advances the step to `get_email` and stores under `age` the
string of the current year minus 1990, reduced by 1 when June 15 has not
yet occurred this year; entering `31/02/1990` (which matches the format
regex but is not a real calendar date) leaves the profile untouched,
stays at `get_dob` and re-prompts. -/
theorem claim_C8 (today : PyDate) (ud : PyDict) :
    (orchGetDob today ud "15/06/1990").step = "get_email" ∧
    dget (orchGetDob today ud "15/06/1990").user_data "age"
      = some (.str (toString (today.year - 1990 -
          (if today.month < 6 ∨ (today.month = 6 ∧ today.day < 15)
           then 1 else 0)))) ∧
    orchGetDob today ud "31/02/1990"
      = ⟨ud, "get_dob", .templ "dob_invalid_reprompt" []⟩ := by
  refine ⟨by with_unfolding_all rfl, ?_, by with_unfolding_all rfl⟩
  have he : orchGetDob today ud "15/06/1990"
      = ⟨dset "age" (.str (toString (ageOn today 1990 6 15)))
          (dset "dob" (.str "15/06/1990") ud), "get_email",
         .templ "dob_ok_ask_email" []⟩ := by
    with_unfolding_all rfl
  rw [he]
  simp only [dget_dset_self]
  rfl

/-! ### Claim C9 -/

/-- Claim C9, confirmed: in every campaign, whenever the body of
`process_message` raises an exception that reaches the outer boundary
(modelled by `processCore` returning `Except.error`), `process_message`
returns the campaign's generic apology response, whose `next_step` is the
safe step `welcome`, instead of propagating the exception.  For sgsa the
statement excludes the message `main_menu` because its guard (lines
546-563) answers before the `try` is entered; the education-savings
handler additionally resets `current_step` to `welcome`. -/
theorem claim_C9 :
    (∀ today sf fuel st msg ud st' e, Sgsa.msgText msg ≠ "main_menu" →
      Sgsa.processCore today sf fuel st msg ud = .error (st', e) →
      Sgsa.process_message today sf fuel st msg ud
        = ⟨st', Sgsa.processErrorResp, 0⟩) ∧
    (∀ sf st msg ud st' e,
      Warisan.processCore sf st msg ud = .error (st', e) →
      Warisan.process_message sf st msg ud = ⟨st', Warisan.errorResp, 0⟩) ∧
    (∀ sf st msg ud st' e,
      Mdk.processCore sf st msg ud = .error (st', e) →
      Mdk.process_message sf st msg ud
        = ⟨{ st' with current_step := "welcome" }, Mdk.errorResp, 0⟩) ∧
    (∀ sf fuel st msg ud st' e,
      Perub.processCore sf fuel st msg ud = .error (st', e) →
      Perub.process_message sf fuel st msg ud = ⟨st', Perub.errorResp, 0⟩) ∧
    (∀ sf ages st msg ud st' e,
      Combo.processCore sf ages st msg ud = .error (st', e) →
      Combo.process_message sf ages st msg ud = ⟨st', Combo.errorResp, 0⟩) := by
  refine ⟨?_, ?_, ?_, ?_, ?_⟩
  · intro today sf fuel st msg ud st' e hmt h
    unfold Sgsa.process_message
    rw [if_neg (by simp [hmt]), h]
  · intro sf st msg ud st' e h
    unfold Warisan.process_message
    rw [h]
  · intro sf st msg ud st' e h
    unfold Mdk.process_message
    rw [h]
  · intro sf fuel st msg ud st' e h
    unfold Perub.process_message
    rw [h]
  · intro sf ages st msg ud st' e h
    unfold Combo.process_message
    rw [h]

/-- Concrete instantiation of `claim_C9`: a dict message at the warisan
welcome-response step raises `AttributeError` in `message.lower()`, and
`process_message` answers with the apology response. -/
theorem claim_C9_witness :
    Warisan.process_message false { current_step := "handle_welcome_response" }
        (.dict {}) []
      = ⟨{ current_step := "handle_welcome_response" }, Warisan.errorResp, 0⟩ :=
  claim_C9.2.1 false { current_step := "handle_welcome_response" } (.dict {}) []
    { current_step := "handle_welcome_response" } "AttributeError"
    (by with_unfolding_all rfl)

/-! ### Claim C10 -/

/-- Claim C10, confirmed: while a campaign is active, a plain-text
message (any `message_type` other than `choice`) whose content was not
seen before is processed and recorded in the message cache; any later
message with identical content in the same conversation within 60
seconds — even across intermediate messages timestamped inside the same
window — is silently dropped: the dedup gate returns `false`, so the
campaign handler is not invoked and no response is sent, even when the
repeat is a legitimate answer. -/
theorem claim_C10 (conv_id content mt0 mt1 : String) (c0 : MsgCache) (t0 t1 : ℚ)
    (mids : List (String × String × ℚ))
    (h0 : mt0 ≠ "choice") (h1 : mt1 ≠ "choice")
    (hk : cacheHas c0 (conv_id ++ "_" ++ content) = false)
    (hmid : ∀ m ∈ mids, t0 ≤ m.2.2 ∧ m.2.2 ≤ t1)
    (ht : t0 ≤ t1) (hw : t1 - t0 < 60) :
    (dedupStep conv_id content mt0 t0 c0).1 = true ∧
    (dedupStep conv_id content mt1 t1
      (dedupRun conv_id (dedupStep conv_id content mt0 t0 c0).2 mids)).1
      = false := by
  have hstep1 : dedupStep conv_id content mt0 t0 c0
      = (true, cacheCleanup t0
          (cacheSet (conv_id ++ ":" ++ content.trim.toLower) t0
            (cacheSet (conv_id ++ "_" ++ content) t0 c0))) := by
    unfold dedupStep
    rw [if_pos (by simp [h0]), if_neg (by simp [hk])]
  have hmem1 : (conv_id ++ "_" ++ content, t0)
      ∈ (dedupStep conv_id content mt0 t0 c0).2 := by
    rw [hstep1]
    have ha : ((conv_id ++ "_" ++ content, t0) : String × ℚ)
        ∈ cacheSet (conv_id ++ "_" ++ content) t0 c0 := by
      have hk2 : (c0.any fun kv => kv.1 == conv_id ++ "_" ++ content) = false := hk
      unfold cacheSet
      rw [if_neg (by simp [hk2])]
      exact List.mem_append_right _ (by simp)
    have hb := mem_cacheSet_or (conv_id ++ "_" ++ content) t0
      (conv_id ++ ":" ++ content.trim.toLower) t0 _ ha
    rcases hb with hb | hb <;>
      exact mem_cacheCleanup t0 _ t0 _ hb (by linarith)
  have inv : ∀ (ms : List (String × String × ℚ)) (c : MsgCache),
      (∀ m ∈ ms, t0 ≤ m.2.2 ∧ m.2.2 ≤ t1) →
      (∃ u, t0 ≤ u ∧ u ≤ t1 ∧ (conv_id ++ "_" ++ content, u) ∈ c) →
      ∃ u, t0 ≤ u ∧ u ≤ t1 ∧
        (conv_id ++ "_" ++ content, u) ∈ dedupRun conv_id c ms := by
    intro ms
    induction ms with
    | nil => intro c _ hc; exact hc
    | cons m rest ih =>
      intro c hms hc
      obtain ⟨u, hu0, hu1, hmem⟩ := hc
      have hm := hms m (List.mem_cons_self _ _)
      have hrest : ∀ x ∈ rest, t0 ≤ x.2.2 ∧ x.2.2 ≤ t1 :=
        fun x hx => hms x (List.mem_cons_of_mem _ hx)
      show ∃ u, t0 ≤ u ∧ u ≤ t1 ∧ (conv_id ++ "_" ++ content, u)
        ∈ dedupRun conv_id (dedupStep conv_id m.1 m.2.1 m.2.2 c).2 rest
      apply ih _ hrest
      unfold dedupStep
      by_cases hch : (m.2.1 != "choice") = true
      · rw [if_pos hch]
        by_cases hhas : cacheHas c (conv_id ++ "_" ++ m.1) = true
        · rw [if_pos hhas]
          exact ⟨u, hu0, hu1, hmem⟩
        · rw [if_neg hhas]
          have hb := mem_cacheSet_or (conv_id ++ "_" ++ content) u
            (conv_id ++ "_" ++ m.1) m.2.2 c hmem
          rcases hb with hb | hb
          · have hb2 := mem_cacheSet_or (conv_id ++ "_" ++ content) u
              (conv_id ++ ":" ++ m.1.trim.toLower) m.2.2 _ hb
            rcases hb2 with hb2 | hb2
            · exact ⟨u, hu0, hu1,
                mem_cacheCleanup m.2.2 _ u _ hb2 (by linarith [hm.1, hm.2])⟩
            · exact ⟨m.2.2, hm.1, hm.2,
                mem_cacheCleanup m.2.2 _ m.2.2 _ hb2 (by linarith)⟩
          · have hb2 := mem_cacheSet_or (conv_id ++ "_" ++ content) m.2.2
              (conv_id ++ ":" ++ m.1.trim.toLower) m.2.2 _ hb
            rcases hb2 with hb2 | hb2 <;>
              exact ⟨m.2.2, hm.1, hm.2,
                mem_cacheCleanup m.2.2 _ m.2.2 _ hb2 (by linarith)⟩
      · rw [if_neg hch]
        exact ⟨u, hu0, hu1,
          mem_cacheCleanup m.2.2 _ u _ hmem (by linarith [hm.1, hm.2])⟩
  constructor
  · rw [hstep1]
  · obtain ⟨u, hu0, hu1, hmem⟩ := inv mids _ hmid ⟨t0, le_refl _, ht, hmem1⟩
    set crun := dedupRun conv_id (dedupStep conv_id content mt0 t0 c0).2 mids
      with hcrun
    have hch : (mt1 != "choice") = true := by simp [h1]
    have hhas : cacheHas crun (conv_id ++ "_" ++ content) = true :=
      cacheHas_of_mem _ u _ hmem
    simp [dedupStep, hch, hhas]

/-- Concrete instantiation of `claim_C10`: the answer `300` sent twice in
conversation `u1`, thirty seconds apart, is processed the first time and
silently dropped the second time. -/
theorem claim_C10_witness :
    (dedupStep "u1" "300" "user_input" 0 []).1 = true ∧
    (dedupStep "u1" "300" "user_input" 30
      (dedupRun "u1" (dedupStep "u1" "300" "user_input" 0 []).2 [])).1
      = false :=
  claim_C10 "u1" "300" "user_input" "user_input" [] 0 30 []
    (by with_unfolding_all decide) (by with_unfolding_all decide)
    (by with_unfolding_all rfl) (by simp) (by norm_num) (by norm_num)

end Chatbot
